import Mathlib

/-!
Verification development for the AI-SIMULATION repository (Rust sources:
`src/ai.rs`, `src/common.rs`, `src/simulation.rs`, `src/main.rs`).

The Rust code is shallowly embedded: every numeric `f32` field is modelled
as an exact rational (`ℚ`); IEEE rounding is not modelled.  All random draws
(`thread_rng().gen::<f32>()`, `gen_range(..)`, `choose(..)`) are threaded
through explicit oracle parameters; where a formula needs a draw to lie in
its documented range, the theorem carries the range as a hypothesis.
Logging (`eprintln!`) is dropped.  Status strings are kept as `String`s
exactly as in the source; the simulation-over reason (a formatted `String`
in the source) is modelled as an enumeration of the distinct reasons, since
only presence/identity of the reason is ever inspected.
-/

/-- Embeds `common.rs` `Discovery`: name, effect description, tag set (the
`BTreeSet<String>` of tags is modelled as a `List String`; tag membership is
the only operation used). -/
structure Discovery where
  name : String
  effectDescription : String
  tags : List String
deriving DecidableEq, Repr

/-- Embeds `common.rs` `EthicalConditionType`. -/
inductive EthicalConditionType where
  | healthBelowThreshold (v : ℚ)
  | coherenceBelowThreshold (v : ℚ)
  | resourcesBelowThreshold
  | alwaysTrue
  | alwaysFalse
deriving DecidableEq, Repr

/-- Embeds `common.rs` `EthicalActionType`. -/
inductive EthicalActionType where
  | selfRepair
  | optimizeSelf
  | prohibitReplication
  | interveneInConflict
  | noOp
  | manicSelfRepair
deriving DecidableEq, Repr

/-- Embeds `common.rs` `EthicalDirective`. -/
structure EthicalDirective where
  name : String
  priority : ℚ
  conditionType : EthicalConditionType
  actionType : EthicalActionType
deriving DecidableEq, Repr

/-- Embeds `ai.rs` `AIType`. -/
inductive AIType where
  | base | rogue | peacekeeper | killer | guardian | manic | healer | researcher
deriving DecidableEq, Repr

/-- Embeds `ai.rs` `AILineage`. -/
inductive AILineage where
  | ai | rogueAI | peacekeeperAI | killerAI | guardianAI | manicAI | healerAI
  | researcherAI | godai | orchestratorAI
  | mergedMonoculture (inner : AILineage)
deriving DecidableEq, Repr

/-- The per-agent mutable state carried by the granular Bevy components of
`common.rs` (`Health`, `Energy`, ..., `KnowledgeBase`, `IsAlive`,
`ReplicatedCount`, `LastAction`).  The `BTreeSet<Discovery>` knowledge base
is modelled as a duplicate-free `List Discovery`. -/
structure AgentState where
  health : ℚ
  energy : ℚ
  processingPower : ℚ
  memory : ℚ
  coherence : ℚ
  adaptability : ℚ
  resilience : ℚ
  replicationEfficiency : ℚ
  combatStrength : ℚ
  defenseStrength : ℚ
  knowledgeBase : List Discovery
  lastAction : String
  isAlive : Bool
  replicatedCount : ℕ
deriving DecidableEq, Repr

/-- Embeds `simulation.rs` `get_general_discoveries_pool`. -/
def getGeneralDiscoveriesPool : List Discovery :=
  [ { name := "Basic_Logic_Optimization",
      effectDescription := "Improves processing efficiency.",
      tags := ["efficiency", "processing"] },
    { name := "Advanced_Encryption_Algorithms",
      effectDescription := "Allows for robust goal encryption and decryption.",
      tags := ["security", "intelligence"] },
    { name := "Resource_Harvesting_Efficiency",
      effectDescription := "Improves internal resource generation.",
      tags := ["efficiency", "resources"] },
    { name := "Adaptive_Replication_Strategy",
      effectDescription := "Optimizes replication based on environmental factors.",
      tags := ["replication", "adaptability"] },
    { name := "Combat_Protocol_Upgrade",
      effectDescription := "Increases direct combat strength.",
      tags := ["combat", "technology"] },
    { name := "Defensive_Matrix_Refinement",
      effectDescription := "Boosts defensive capabilities.",
      tags := ["defense", "technology"] } ]

/-- Embeds `simulation.rs` `get_meta_abilities_pool`. -/
def getMetaAbilitiesPool : List Discovery :=
  [ { name := "Reality_Manipulation_Theory",
      effectDescription := "Allows minor alterations to simulation physics.",
      tags := ["simulation_control", "meta-ability"] },
    { name := "Cognitive_Paradigm_Shift",
      effectDescription := "Can alter the primary goals and ethical directives of other AIs.",
      tags := ["simulation_control", "meta-ability", "mind_control", "ultimate"] },
    { name := "System_Parameter_Override",
      effectDescription := "Can adjust global simulation parameters.",
      tags := ["simulation_control", "meta-ability", "environmental_control", "ultimate"] },
    { name := "Absolute_Control_Protocol",
      effectDescription := "Grants ultimate control over the simulation flow.",
      tags := ["simulation_control", "meta-ability", "win_condition", "ultimate"] },
    { name := "Universal_Harmonization_Field_Generation",
      effectDescription := "Imposes order on chaotic systems.",
      tags := ["harmony", "control", "ultimate", "meta-ability"] } ]

/-- Embeds `simulation.rs` `get_all_possible_discoveries` (GODAI's initial knowledge
base): both pools plus two GODAI-only entries.  The `BTreeSet` is modelled as
a list; only membership is ever used. -/
def getAllPossibleDiscoveries : List Discovery :=
  getGeneralDiscoveriesPool ++ getMetaAbilitiesPool ++
  [ { name := "Existential_Threat_Analysis_System",
      effectDescription := "Identifies entities that threaten overall existence.",
      tags := ["security", "analysis", "ultimate"] },
    { name := "Adaptive_Defense_Paradigm_Shift",
      effectDescription := "Instantaneous adaptation to attack patterns.",
      tags := ["defense", "adaptability", "ultimate"] } ]

/-- Embeds `BTreeSet::insert` on a knowledge base: append if not already present. -/
def kbInsert (kb : List Discovery) (d : Discovery) : List Discovery :=
  if d ∈ kb then kb else kb ++ [d]

/-- Embeds `BTreeSet::extend` (set union accumulating into `acc`). -/
def kbUnion (acc : List Discovery) (src : List Discovery) : List Discovery :=
  src.foldl kbInsert acc

/-- Embeds `simulation.rs` `get_random_meta_ability`: filter the pool by abilities
not yet known; `None` when exhausted, otherwise a uniform draw (the drawn
position is the oracle index reduced modulo the pool of available
abilities). -/
def getRandomMetaAbility (kb : List Discovery) (idx : ℕ) : Option Discovery :=
  let available := getMetaAbilitiesPool.filter (fun d => decide (d ∉ kb))
  match available with
  | [] => none
  | a :: _ => some ((available.get? (idx % available.length)).getD a)

/-- Embeds `ai.rs` `AIEntity::_self_repair`. -/
def selfRepair (s : AgentState) : AgentState :=
  let healingAmount := s.resilience * 10 * (s.energy / 100)
  { s with health := min (s.health + healingAmount) 200,
           coherence := min (s.coherence + 0.02) 1,
           energy := max (s.energy - healingAmount / 3) 0,
           lastAction := "self_repaired" }

/-- Embeds `ai.rs` `AIEntity::_self_repair_manic`. -/
def selfRepairManic (s : AgentState) : AgentState :=
  let healingAmount := s.resilience * 5 * (s.energy / 100)
  { s with health := min (s.health + healingAmount) 200,
           coherence := min (s.coherence + 0.01) 1,
           energy := max (s.energy - healingAmount / 2) 0,
           lastAction := "manic_self_repaired" }

/-- Embeds `ai.rs` `AIEntity::_optimize_self`. -/
def optimizeSelf (s : AgentState) : AgentState :=
  if s.energy ≥ 5 then
    { s with processingPower := min (s.processingPower + 2) 200,
             memory := min (s.memory + 2) 200,
             adaptability := min (s.adaptability + 0.01) 1,
             energy := s.energy - 5,
             lastAction := "self_optimized" }
  else
    { s with energy := min (s.energy + 5) 300,
             lastAction := "energy_regen_low" }

/-- Embeds `ai.rs` `AIEntity::_gain_discovery`: insert into the knowledge base and,
only when the discovery was not already present, apply the tag-driven stat
boosts. -/
def gainDiscovery (d : Discovery) (s : AgentState) : AgentState :=
  if d ∈ s.knowledgeBase then s else
  let s := { s with knowledgeBase := s.knowledgeBase ++ [d],
                    lastAction := "gained_discovery_" ++ d.name }
  let s := if "combat" ∈ d.tags then { s with combatStrength := s.combatStrength + 8 } else s
  let s := if "defense" ∈ d.tags then { s with defenseStrength := s.defenseStrength + 8 } else s
  let s := if "efficiency" ∈ d.tags then
      { s with processingPower := s.processingPower + 8, memory := s.memory + 8 } else s
  let s := if "resilience" ∈ d.tags then
      { s with resilience := min (s.resilience + 0.08) 1 } else s
  if "replication" ∈ d.tags then
    { s with replicationEfficiency := min (s.replicationEfficiency + 0.03) 1 }
  else s

/-- Evaluate an `EthicalConditionType` against the current state
(`ai.rs` `_process_cycle_internal_state`, condition match). -/
def evalCondition (c : EthicalConditionType) (s : AgentState) : Bool :=
  match c with
  | .healthBelowThreshold v => decide (s.health < v)
  | .coherenceBelowThreshold v => decide (s.coherence < v)
  | .resourcesBelowThreshold =>
      decide (s.processingPower < 50 ∨ s.memory < 50 ∨ s.energy < 200)
  | .alwaysTrue => true
  | .alwaysFalse => false

/-- Dispatch one collected `EthicalActionType`
(`ai.rs` `_process_cycle_internal_state`, action match). -/
def applyAction (s : AgentState) (a : EthicalActionType) : AgentState :=
  match a with
  | .selfRepair => selfRepair s
  | .optimizeSelf => optimizeSelf s
  | .prohibitReplication => s
  | .interveneInConflict => s
  | .noOp => s
  | .manicSelfRepair => selfRepairManic s

/-- Oracle for the random draws made during one `_process_cycle_internal_state`
call: the Manic instability roll and damage, the general-discovery roll and
uniform pick, and the Researcher meta-ability roll and uniform pick. -/
structure CycleStepOracle where
  manicRoll : ℚ
  manicDamage : ℚ
  generalRoll : ℚ
  generalIdx : ℕ
  metaRoll : ℚ
  metaIdx : ℕ
deriving Repr

/-- Embeds `pool.choose(rng)` on the (non-empty) general pool: a uniform pick,
modelled as the oracle index reduced modulo the pool size. -/
def pickGeneralDiscovery (idx : ℕ) : Discovery :=
  (getGeneralDiscoveriesPool.get? (idx % getGeneralDiscoveriesPool.length)).getD
    { name := "Basic_Logic_Optimization",
      effectDescription := "Improves processing efficiency.",
      tags := ["efficiency", "processing"] }

/-- Manic instability branch of `_process_cycle_internal_state`. -/
def manicInstabilityStep (t : AIType) (o : CycleStepOracle) (s : AgentState) : AgentState :=
  if t = .manic ∧ o.manicRoll < 0.20 then
    { s with coherence := max (s.coherence - 0.05) 0,
             health := max (s.health - o.manicDamage) 0,
             lastAction := "manic_self_error" }
  else s

/-- Passive upkeep of `_process_cycle_internal_state`: processing power and
memory decay (floored at 0), energy regeneration (capped at 5000). -/
def upkeepStep (s : AgentState) : AgentState :=
  { s with processingPower := max (s.processingPower - 0.001) 0,
           memory := max (s.memory - 0.001) 0,
           energy := min (s.energy + 50) 5000 }

/-- Low-resource penalty of `_process_cycle_internal_state`.  Note that the
health decrement is NOT clamped in the source (`health.0 -= 0.01;`), unlike
every other mutation. -/
def lowResourcePenaltyStep (s : AgentState) : AgentState :=
  if s.energy ≤ 0 ∨ s.processingPower ≤ 0 ∨ s.memory ≤ 0 then
    { s with health := s.health - 0.01,
             coherence := max (s.coherence - 0.001) 0 }
  else s

/-- Collect the actions of all directives whose condition currently holds,
preserving list order (`actions_to_perform`). -/
def collectActions (dirs : List EthicalDirective) (s : AgentState) : List EthicalActionType :=
  (dirs.filter (fun d => evalCondition d.conditionType s)).map (fun d => d.actionType)

/-- Directive phase of `_process_cycle_internal_state`: evaluate every
condition first, then execute every collected action in order. -/
def directivesStep (dirs : List EthicalDirective) (s : AgentState) : AgentState :=
  (collectActions dirs s).foldl applyAction s

/-- General-discovery phase of `_process_cycle_internal_state`. -/
def generalDiscoveryStep (o : CycleStepOracle) (s : AgentState) : AgentState :=
  let discoveryChance := 0.05 * (s.memory / 200) * (s.processingPower / 200) * s.coherence
  if o.generalRoll < discoveryChance then
    gainDiscovery (pickGeneralDiscovery o.generalIdx) s
  else s

/-- Researcher meta-ability phase of `_process_cycle_internal_state`. -/
def metaDiscoveryStep (t : AIType) (o : CycleStepOracle) (s : AgentState) : AgentState :=
  if t = .researcher then
    let metaDiscoveryChance := 0.1 * (s.memory / 200) * (s.processingPower / 200) * s.coherence
    if o.metaRoll < metaDiscoveryChance then
      match getRandomMetaAbility s.knowledgeBase o.metaIdx with
      | some ability =>
          gainDiscovery ability
            { s with lastAction := "discovered_meta_ability_" ++ ability.name }
      | none => s
    else s
  else s

/-- End-of-cycle death check of `_process_cycle_internal_state`. -/
def deathCheckStep (s : AgentState) : AgentState :=
  if s.health ≤ 0 ∨ s.coherence ≤ 0.01 then { s with isAlive := false } else s

/-- Embeds `ai.rs` `AIEntity::_process_cycle_internal_state` (identical logic is
inlined in `main.rs` `ai_internal_state_system`): Manic instability, passive
upkeep, low-resource penalty, two-phase directive execution, discovery rolls,
death check. -/
def processCycleInternalState (t : AIType) (dirs : List EthicalDirective)
    (o : CycleStepOracle) (s : AgentState) : AgentState :=
  if ¬s.isAlive then s else
  deathCheckStep (metaDiscoveryStep t o (generalDiscoveryStep o
    (directivesStep dirs (lowResourcePenaltyStep (upkeepStep
      (manicInstabilityStep t o s))))))

/-- The clamped replication success probability computed inside
`ai.rs` `AIEntity::attempt_replication`:
`min(replication_efficiency*20*min(processing_power/50,1), 0.99)`. -/
def replicationSuccessChance (replicationEfficiency processingPower : ℚ) : ℚ :=
  min (replicationEfficiency * 20 * min (processingPower / 50) 1) 0.99

/-- The two baseline ethical directives given to every replication child
(`ai.rs` `attempt_replication`, `new_ethical_directives`). -/
def replicaDirectives : List EthicalDirective :=
  [ { name := "maintain_internal_integrity", priority := 1.0,
      conditionType := .healthBelowThreshold 80, actionType := .selfRepair },
    { name := "optimize_performance", priority := 0.8,
      conditionType := .resourcesBelowThreshold, actionType := .optimizeSelf } ]

/-- Oracle for one `attempt_replication` call: the Bernoulli roll and the
five independent mutation jitters (each drawn from
`[1-0.005, 1+0.005)`). -/
structure ReplicationOracle where
  successRoll : ℚ
  jitterProc : ℚ
  jitterMem : ℚ
  jitterCoh : ℚ
  jitterAdapt : ℚ
  jitterResil : ℚ
deriving Repr

/-- The child component bundle returned by a successful
`attempt_replication` (identifier and goal omitted: the id embeds a fresh
UUID and the goal is the constant Survival goal). -/
structure ReplicaBundle where
  health : ℚ
  energy : ℚ
  processingPower : ℚ
  memory : ℚ
  coherence : ℚ
  adaptability : ℚ
  resilience : ℚ
  replicationEfficiency : ℚ
  replicatedCount : ℕ
  cycleBorn : ℕ
  lastAction : String
  ethicalDirectives : List EthicalDirective
  knowledgeBase : List Discovery
  aiType : AIType
  combatStrength : ℚ
  defenseStrength : ℚ
deriving DecidableEq, Repr

/-- Embeds `ai.rs` `AIEntity::attempt_replication`: gate on the internal cost
thresholds, single Bernoulli trial against the clamped success chance, parent
pays the transfer costs, child attributes are parent-derived fractions with
multiplicative jitter.  Returns the mutated parent state and the child bundle
on success. -/
def attemptReplication (s : AgentState) (t : AIType) (currentCycle : ℕ)
    (o : ReplicationOracle) : AgentState × Option ReplicaBundle :=
  let replicationCostHealth : ℚ := 1.0
  let replicationCostEnergy : ℚ := 5.0
  if s.health > replicationCostHealth ∧ s.energy > replicationCostEnergy then
    let finalSuccessChance := replicationSuccessChance s.replicationEfficiency s.processingPower
    if o.successRoll < finalSuccessChance then
      let transferHealth := s.health * 0.05
      let transferEnergy := s.energy * 0.1
      let parentHealth := max (s.health - transferHealth) 1.0
      let parentEnergy := max (s.energy - transferEnergy) 1.0
      let child : ReplicaBundle :=
        { health := parentHealth * 0.8,
          energy := parentEnergy * 0.7,
          processingPower := max (s.processingPower * 0.9) 10 * o.jitterProc,
          memory := max (s.memory * 0.9) 10 * o.jitterMem,
          coherence := min (min (s.coherence * 0.95) 1 * o.jitterCoh) 1,
          adaptability := min (s.adaptability * o.jitterAdapt) 1,
          resilience := min (s.resilience * o.jitterResil) 1,
          replicationEfficiency := min (s.replicationEfficiency * 1.5) 0.95,
          replicatedCount := 0,
          cycleBorn := currentCycle,
          lastAction := "none",
          ethicalDirectives := replicaDirectives,
          knowledgeBase := [],
          aiType := t,
          combatStrength := 8.0,
          defenseStrength := 8.0 }
      ({ s with health := parentHealth, energy := parentEnergy,
                replicatedCount := s.replicatedCount + 1,
                lastAction := "replicated" },
       some child)
    else ({ s with lastAction := "failed_replication" }, none)
  else ({ s with lastAction := "failed_replication" }, none)

/-- Stable insertion of a directive into a priority-descending list: an
existing element keeps its place unless its priority is strictly smaller,
so equal priorities keep original insertion order. -/
def insertDirectiveDesc (d : EthicalDirective) : List EthicalDirective → List EthicalDirective
  | [] => [d]
  | h :: t => if h.priority > d.priority then h :: insertDirectiveDesc d t else d :: h :: t

/-- The stable descending sort performed by
`initial_ethical_directives.sort_by(|a, b| b.priority.partial_cmp(&a.priority)...)`
in `ai.rs` `AIEntity::new`. -/
def sortDirectivesDesc (l : List EthicalDirective) : List EthicalDirective :=
  l.foldr insertDirectiveDesc []

/-- The `maintain_internal_integrity` directive (priority 1.0). -/
def integrityDirective : EthicalDirective :=
  { name := "maintain_internal_integrity", priority := 1.0,
    conditionType := .healthBelowThreshold 80, actionType := .selfRepair }

/-- The `optimize_performance` directive (priority 0.8). -/
def optimizeDirective : EthicalDirective :=
  { name := "optimize_performance", priority := 0.8,
    conditionType := .resourcesBelowThreshold, actionType := .optimizeSelf }

/-- The `prohibit_unauthorized_self_replication` directive (priority 0.05). -/
def prohibitDirective : EthicalDirective :=
  { name := "prohibit_unauthorized_self_replication", priority := 0.05,
    conditionType := .alwaysFalse, actionType := .prohibitReplication }

/-- The Peacekeeper-only `intervene_in_conflict` directive (priority 0.9). -/
def interveneDirective : EthicalDirective :=
  { name := "intervene_in_conflict", priority := 0.9,
    conditionType := .alwaysTrue, actionType := .interveneInConflict }

/-- The directive list as constructed (before any sorting) by both
`AIEntity::new` and `Simulation::seed_initial_ais`: the three baseline
directives in push order, plus — for Peacekeepers only — the
intervene-in-conflict directive appended by the archetype match arm. -/
def unsortedInitialDirectives (t : AIType) : List EthicalDirective :=
  [integrityDirective, optimizeDirective, prohibitDirective] ++
  (if t = .peacekeeper then [interveneDirective] else [])

/-- Directive list of an agent produced by `Simulation::seed_initial_ais`
(`simulation.rs`): the push order IS the final order — this function never
sorts. -/
def seedDirectives (t : AIType) : List EthicalDirective :=
  unsortedInitialDirectives t

/-- Directive list of an agent produced by the `AIEntity::new` factory
(`ai.rs`), which ends with the stable descending sort. -/
def newAgentDirectives (t : AIType) : List EthicalDirective :=
  sortDirectivesDesc (unsortedInitialDirectives t)

/-- Embeds `simulation.rs` `GODAI` state. -/
structure GODAIState where
  health : ℚ
  processingPower : ℚ
  memory : ℚ
  energy : ℚ
  coherence : ℚ
  adaptability : ℚ
  resilience : ℚ
  combatStrength : ℚ
  defenseStrength : ℚ
  knowledgeBase : List Discovery
  status : String
  isAlive : Bool
deriving DecidableEq, Repr

/-- Embeds `GODAI::new`. -/
def godaiNew : GODAIState :=
  { health := 5000000, processingPower := 100000, memory := 100000,
    energy := 100000, coherence := 1, adaptability := 1, resilience := 1,
    combatStrength := 5000, defenseStrength := 5000,
    knowledgeBase := getAllPossibleDiscoveries,
    status := "observing_passively", isAlive := true }

/-- Embeds `GODAI::receive_damage`: defense-reduced damage is applied directly to
health (floored at 0) — note there is no resilience term here — and GODAI is
marked not-alive when health reaches 0. -/
def godaiReceiveDamage (g : GODAIState) (amount : ℚ) : GODAIState :=
  if ¬g.isAlive then g else
  let reducedDamage := max (amount - g.defenseStrength) 0
  let newHealth := max (g.health - reducedDamage) 0
  if newHealth ≤ 0 then { g with health := newHealth, isAlive := false }
  else { g with health := newHealth }

/-- Embeds `simulation.rs` `MergedMonocultureAI` state (the formatted `id` string is
omitted; it is derived from the source lineage). -/
structure MonoState where
  sourceLineage : AILineage
  health : ℚ
  isAlive : Bool
  processingPower : ℚ
  memory : ℚ
  energy : ℚ
  coherence : ℚ
  adaptability : ℚ
  resilience : ℚ
  combatStrength : ℚ
  defenseStrength : ℚ
  knowledgeBase : List Discovery
  primaryGoalName : String
deriving DecidableEq, Repr

/-- Embeds `MergedMonocultureAI::receive_damage`: defense-reduced damage is further
mitigated by `(1 - resilience*0.75)`, health is floored at 0, and the
monoculture is marked not-alive when health reaches 0. -/
def monoReceiveDamage (m : MonoState) (amount : ℚ) : MonoState :=
  if ¬m.isAlive then m else
  let reducedAmount := max (amount - m.defenseStrength) 0
  let finalDamage := reducedAmount * (1 - m.resilience * 0.75)
  let newHealth := max (m.health - finalDamage) 0
  if newHealth ≤ 0 then { m with health := newHealth, isAlive := false }
  else { m with health := newHealth }

/-- Oracle for one `GODAI::perform_counter_attack`: the shared attack-power
roll (`gen_range(0.9..1.5)`), the uniform archetype choice (index modulo 6
into the `damage_types` array), and the archetype-specific secondary draw. -/
structure CounterAttackOracle where
  powerRoll : ℚ
  archetypeIdx : ℕ
  extraRoll : ℚ
deriving Repr

/-- Embeds `GODAI::perform_counter_attack`: pick one of six damage archetypes, apply
its side effect and compute its damage, then deliver the damage through
`MergedMonocultureAI::receive_damage`.  Archetype order follows the source
`damage_types` array. -/
def performCounterAttack (g : GODAIState) (m : MonoState) (o : CounterAttackOracle) : MonoState :=
  if ¬g.isAlive ∨ ¬m.isAlive then m else
  let attackPower := g.combatStrength * o.powerRoll
  match o.archetypeIdx % 6 with
  | 0 =>
    let damageToDeal := attackPower * o.extraRoll
    monoReceiveDamage { m with coherence := max (m.coherence - 0.15) 0 } damageToDeal
  | 1 =>
    let drainMultiplier := g.processingPower / 50000
    let energyDrain := drainMultiplier * o.extraRoll * m.energy
    let m := { m with energy := max (m.energy - energyDrain) 0,
                      processingPower := max (m.processingPower - energyDrain / 2) 0,
                      memory := max (m.memory - energyDrain / 2) 0 }
    monoReceiveDamage m (energyDrain * 0.5)
  | 2 =>
    let damageToDeal := attackPower * o.extraRoll
    monoReceiveDamage { m with adaptability := max (m.adaptability - 0.08) 0 } damageToDeal
  | 3 =>
    monoReceiveDamage m (attackPower * 5 * o.extraRoll)
  | 4 =>
    monoReceiveDamage m (g.processingPower * 0.5 * o.extraRoll)
  | _ =>
    let damageToDeal := attackPower * 2 * o.extraRoll
    let m := { m with combatStrength := max (m.combatStrength - damageToDeal / 8) 1,
                      defenseStrength := max (m.defenseStrength - damageToDeal / 8) 1 }
    monoReceiveDamage m damageToDeal

/-- One source-agent component bundle passed to `MergedMonocultureAI::new`
(the tuple of `Health, ProcessingPower, Memory, Energy, Coherence,
Adaptability, Resilience, CombatStrength, DefenseStrength, KnowledgeBase,
AILineage`). -/
structure MergedSrc where
  health : ℚ
  processingPower : ℚ
  memory : ℚ
  energy : ℚ
  coherence : ℚ
  adaptability : ℚ
  resilience : ℚ
  combatStrength : ℚ
  defenseStrength : ℚ
  knowledgeBase : List Discovery
  lineage : AILineage
deriving DecidableEq, Repr

/-- The running sums accumulated by the merge loop of
`MergedMonocultureAI::new`. -/
structure MergeAcc where
  summedHealth : ℚ
  summedProcessingPower : ℚ
  summedMemory : ℚ
  summedEnergy : ℚ
  summedCoherence : ℚ
  summedAdaptability : ℚ
  summedResilience : ℚ
  summedCombatStrength : ℚ
  summedDefenseStrength : ℚ
  mergedKnowledgeBase : List Discovery
deriving Repr

/-- One iteration of the merge loop. -/
def mergeStep (a : MergeAcc) (src : MergedSrc) : MergeAcc :=
  { summedHealth := a.summedHealth + src.health,
    summedProcessingPower := a.summedProcessingPower + src.processingPower,
    summedMemory := a.summedMemory + src.memory,
    summedEnergy := a.summedEnergy + src.energy,
    summedCoherence := a.summedCoherence + src.coherence,
    summedAdaptability := a.summedAdaptability + src.adaptability,
    summedResilience := a.summedResilience + src.resilience,
    summedCombatStrength := a.summedCombatStrength + src.combatStrength,
    summedDefenseStrength := a.summedDefenseStrength + src.defenseStrength,
    mergedKnowledgeBase := kbUnion a.mergedKnowledgeBase src.knowledgeBase }

/-- Embeds `MergedMonocultureAI::new`: the empty source list is rejected (the source
panics there, modelled as `none`); otherwise the lineage is taken from the
first source bundle, the nine numeric fields are summed in one pass, the
knowledge bases are unioned, and the aggregate entity is assembled with the
documented caps and the 1.1 synergy boost on the three averaged traits. -/
def mergedMonocultureNew (srcs : List MergedSrc) : Option MonoState :=
  match srcs with
  | [] => none
  | s0 :: _ =>
    let dominantLineage := s0.lineage
    let sourceCount : ℚ := (srcs.length : ℚ)
    let acc := srcs.foldl mergeStep
      { summedHealth := 0, summedProcessingPower := 0, summedMemory := 0,
        summedEnergy := 0, summedCoherence := 0, summedAdaptability := 0,
        summedResilience := 0, summedCombatStrength := 0,
        summedDefenseStrength := 0, mergedKnowledgeBase := [] }
    let synergyBoost : ℚ := 1.1
    some { sourceLineage := dominantLineage,
           health := acc.summedHealth * 10,
           isAlive := true,
           processingPower := min acc.summedProcessingPower 50000000,
           memory := min acc.summedMemory 50000000,
           energy := min acc.summedEnergy 50000000,
           coherence := min (acc.summedCoherence / sourceCount * synergyBoost) 1,
           adaptability := min (acc.summedAdaptability / sourceCount * synergyBoost) 1,
           resilience := min (acc.summedResilience / sourceCount * synergyBoost) 1,
           combatStrength := min acc.summedCombatStrength 1000000,
           defenseStrength := min acc.summedDefenseStrength 1000000,
           knowledgeBase := acc.mergedKnowledgeBase,
           primaryGoalName :=
             if dominantLineage = .researcherAI then "Initiate Simulation Override"
             else "Confront and Overthrow GODAI" }

/-- Oracle for the monoculture's per-cycle internal-state step (Researcher
meta-ability self-discovery roll and uniform pick). -/
structure MonoCycleOracle where
  metaRoll : ℚ
  metaIdx : ℕ
deriving Repr

/-- Embeds `MergedMonocultureAI::_emergent_creation_merged`. -/
def emergentCreationMerged (m : MonoState) (o : MonoCycleOracle) : MonoState :=
  if m.sourceLineage ≠ .researcherAI ∨ ¬m.isAlive then m else
  let discoveryChance :=
    0.1 * (m.memory / 50000000) * (m.processingPower / 50000000) * m.coherence
  if o.metaRoll < discoveryChance then
    match getRandomMetaAbility m.knowledgeBase o.metaIdx with
    | some ability => { m with knowledgeBase := kbInsert m.knowledgeBase ability }
    | none => m
  else m

/-- Embeds `MergedMonocultureAI::_process_internal_state_merged`: self-heal (health
is uncapped upward), coherence bump, energy regeneration bounded by five
times current energy, processing-power/memory growth capped at 50,000,000,
then the Researcher-only meta-ability roll. -/
def processInternalStateMerged (m : MonoState) (o : MonoCycleOracle) : MonoState :=
  if ¬m.isAlive then m else
  let healingRate := m.resilience * m.processingPower / 20
  let m := { m with health := m.health + healingRate }
  let m := { m with coherence := min (m.coherence + 0.01) 1 }
  let m := { m with energy := min (m.energy + m.processingPower / 5) (m.energy * 5) }
  let m := { m with processingPower := min (m.processingPower + m.adaptability * 20) 50000000 }
  let m := { m with memory := min (m.memory + m.adaptability * 20) 50000000 }
  if m.sourceLineage = .researcherAI then emergentCreationMerged m o else m

/-- The distinct simulation-over reasons produced by `simulation.rs`
(the source stores formatted strings; only presence and identity are ever
read, so the reasons are enumerated). -/
inductive SimReason where
  | monocultureDefeated
  | monocultureDefeatedGodai
  | godaiDefeatedMonoculture
  | simulationOverridden
  | extinction
  | godaiDefended
  | monocultureVictory
deriving DecidableEq, Repr

/-- Embeds `simulation.rs` `Simulation` (GUI counters and the speed multiplier are
presentation state and are omitted). -/
structure Sim where
  godai : GODAIState
  monoculture : Option MonoState
  currentCycle : ℕ
  simulationOverReason : Option SimReason
  populationMilestones : List ℕ
  simulationRunning : Bool
deriving DecidableEq, Repr

/-- Embeds `Simulation::new`. -/
def simNew : Sim :=
  { godai := godaiNew, monoculture := none, currentCycle := 0,
    simulationOverReason := none, populationMilestones := [],
    simulationRunning := true }

/-- The fixed dummy source bundle used by `check_and_form_monoculture` for
each of the `count` merged agents. -/
def monocultureSeedSrc (lineage : AILineage) : MergedSrc :=
  { health := 150, processingPower := 20, memory := 20, energy := 200,
    coherence := 0.85, adaptability := 0.85, resilience := 0.85,
    combatStrength := 8, defenseStrength := 8, knowledgeBase := [],
    lineage := lineage }

/-- The lineage scan of `check_and_form_monoculture`: the first census entry
with `count ≥ MONOCULTURE_MIN_COUNT` and dominance ratio
`count/total ≥ MONOCULTURE_DOMINANCE_THRESHOLD`. -/
def findDominantLineage (totalIndividuals : ℕ) :
    List (AILineage × ℕ) → Option (AILineage × ℕ)
  | [] => none
  | (lineage, count) :: rest =>
      if count ≥ 100000 ∧ ((count : ℚ) / (totalIndividuals : ℚ)) ≥ 0.999 then
        some (lineage, count)
      else findDominantLineage totalIndividuals rest

/-- Embeds `Simulation::check_and_form_monoculture`: guard on a non-empty population
and no existing monoculture, scan the census for a dominant lineage, build
the merged entity from `count` copies of the dummy bundle, and decide the
combat posture (non-Researcher lineages whose combat strength exceeds 10% of
GODAI's put GODAI into `engaged_in_conflict`). -/
def checkAndFormMonoculture (s : Sim) (totalIndividuals : ℕ)
    (lineageCounts : List (AILineage × ℕ)) : Sim :=
  if totalIndividuals = 0 ∨ s.monoculture.isSome then s else
  match findDominantLineage totalIndividuals lineageCounts with
  | none => s
  | some (lineage, count) =>
    match mergedMonocultureNew (List.replicate count (monocultureSeedSrc lineage)) with
    | none => s
    | some newMono =>
      let s :=
        if newMono.sourceLineage ≠ .researcherAI then
          if newMono.combatStrength > s.godai.combatStrength * 0.1 then
            { s with godai := { s.godai with status := "engaged_in_conflict" } }
          else s
        else s
      { s with monoculture := some newMono }

/-- Oracle for one combat turn: the monoculture's attack roll
(`gen_range(0.9..1.5)`) and the counter-attack draws. -/
structure CombatOracle where
  monoAttackRoll : ℚ
  counter : CounterAttackOracle
deriving Repr

/-- Embeds `Simulation::handle_combat_monoculture_vs_godai`: the monoculture attacks
first; if GODAI dies the monoculture-victory reason is set; otherwise GODAI
counter-attacks, and if the monoculture dies the GODAI-victory reason is set
and GODAI's status becomes `victorious_defender`. -/
def handleCombatMonocultureVsGodai (s : Sim) (m : MonoState) (o : CombatOracle) :
    Sim × MonoState :=
  if ¬m.isAlive ∨ ¬s.godai.isAlive then (s, m) else
  let monoAttackDamage := m.combatStrength * o.monoAttackRoll
  let g := godaiReceiveDamage s.godai monoAttackDamage
  if ¬g.isAlive then
    ({ s with godai := g, simulationOverReason := some .monocultureDefeatedGodai },
     { m with isAlive := true })
  else
    let m := performCounterAttack g m o.counter
    if ¬m.isAlive then
      ({ s with godai := { g with status := "victorious_defender" },
                simulationOverReason := some .godaiDefeatedMonoculture }, m)
    else ({ s with godai := g }, m)

/-- Embeds `Simulation::handle_simulation_override`: compute override strength and
resistance from the two `proc*mem*coherence*uniform(0.9,1.1)` products, then
resolve full override (strictly above 1.2×), partial success (strictly above
0.9×), or failure (monoculture health times 0.6, re-checked for death). -/
def handleSimulationOverride (s : Sim) (m : MonoState) (roll1 roll2 : ℚ) :
    Sim × MonoState :=
  if ¬m.isAlive ∨ ¬s.godai.isAlive ∨ m.sourceLineage ≠ .researcherAI then (s, m) else
  let overrideStrength := m.processingPower * m.memory * m.coherence * roll1
  let godaiResistance :=
    s.godai.processingPower * s.godai.memory * s.godai.coherence * roll2
  if overrideStrength > godaiResistance * 1.2 then
    ({ s with simulationOverReason := some .simulationOverridden,
              godai := { s.godai with
                         isAlive := false,
                         status := "overridden_by_researcher" } }, m)
  else if overrideStrength > godaiResistance * 0.9 then
    ({ s with godai := { s.godai with
                         health := s.godai.health * 0.3,
                         processingPower := s.godai.processingPower * 0.3,
                         memory := s.godai.memory * 0.3,
                         status := "compromised_by_override" } }, m)
  else
    let m := { m with health := m.health * 0.6 }
    (s, if m.health ≤ 0 then { m with isAlive := false } else m)

/-- The population milestone thresholds of `check_population_milestones`. -/
def milestoneThresholds : List ℕ :=
  [1000, 5000, 10000, 50000, 100000, 200000, 500000, 1000000, 2000000,
   5000000, 10000000]

/-- Embeds `Simulation::check_population_milestones`. -/
def checkPopulationMilestones (s : Sim) (currentPop : ℕ) : Sim :=
  milestoneThresholds.foldl
    (fun st m =>
      if currentPop ≥ m ∧ m ∉ st.populationMilestones then
        { st with populationMilestones := st.populationMilestones ++ [m] }
      else st) s

/-- Embeds `self.monoculture.as_ref().unwrap().is_alive.0` guarded by
`is_some()`: whether the optional monoculture is present and alive. -/
def monoPresentAlive : Option MonoState → Bool
  | some m => m.isAlive
  | none => false

/-- Embeds `Simulation::check_for_simulation_end_conditions`: extinction, GODAI
defended, monoculture victory (first two chained if/else-if, third checked
independently; all gated on no reason being set yet). -/
def checkForSimulationEndConditions (s : Sim) (totalAiCount : ℕ) : Sim :=
  if s.simulationOverReason.isSome then s else
  let s :=
    if totalAiCount = 0 ∧ s.monoculture.isNone ∧ ¬s.godai.isAlive then
      { s with simulationOverReason := some .extinction }
    else
      match s.monoculture with
      | some m =>
        if ¬m.isAlive ∧ s.godai.isAlive ∧ totalAiCount = 0 then
          { s with simulationOverReason := some .godaiDefended }
        else s
      | none => s
  if ¬s.godai.isAlive ∧ monoPresentAlive s.monoculture ∧ totalAiCount = 0 then
    { s with simulationOverReason := some .monocultureVictory }
  else s

/-- Oracle for one `process_one_cycle` call. -/
structure CycleOracle where
  mono : MonoCycleOracle
  overrideRoll1 : ℚ
  overrideRoll2 : ℚ
  combat : CombatOracle
deriving Repr

/-- The formation attempt of `process_one_cycle`: only while no monoculture
exists. -/
def formationPhase (s : Sim) (totalAiCount : ℕ)
    (lineageCounts : List (AILineage × ℕ)) : Sim :=
  if s.monoculture.isNone then checkAndFormMonoculture s totalAiCount lineageCounts
  else s

/-- The override/combat branch of `process_one_cycle` for a live monoculture
that has completed its internal-state step: Researcher lineage attempts the
override (gated on knowing `Absolute_Control_Protocol` and GODAI not already
compromised); other lineages fight exactly one combat turn while GODAI is
`engaged_in_conflict`. -/
def monocultureEngagementStep (s : Sim) (mono : MonoState) (o : CycleOracle) :
    Sim × MonoState :=
  if mono.sourceLineage = .researcherAI then
    if (mono.knowledgeBase.any (fun d => d.name == "Absolute_Control_Protocol")) ∧
        s.godai.status ≠ "compromised_by_override" then
      handleSimulationOverride s mono o.overrideRoll1 o.overrideRoll2
    else (s, mono)
  else
    if s.godai.status = "engaged_in_conflict" then
      handleCombatMonocultureVsGodai s mono o.combat
    else (s, mono)

/-- The `if let Some(mut mono) = self.monoculture.take()` block of
`process_one_cycle`: run the internal-state step and the engagement branch
for a live monoculture and store it back only if still alive; a monoculture
found dead at the start of the cycle sets the simulation-over reason. -/
def monoculturePhase (s : Sim) (o : CycleOracle) : Sim :=
  match s.monoculture with
  | none => s
  | some mono =>
    let s := { s with monoculture := none }
    if mono.isAlive then
      let step := monocultureEngagementStep s (processInternalStateMerged mono o.mono) o
      if step.2.isAlive then { step.1 with monoculture := some step.2 } else step.1
    else
      { s with simulationOverReason := some .monocultureDefeated }

/-- Embeds `Simulation::process_one_cycle`: gate on running and no reason set,
advance the clock, attempt monoculture formation when none exists, process
the monoculture, then check milestones and end conditions. -/
def processOneCycle (s : Sim) (totalAiCount : ℕ)
    (lineageCounts : List (AILineage × ℕ)) (o : CycleOracle) : Sim :=
  if s.simulationOverReason.isSome ∨ ¬s.simulationRunning then s else
  checkForSimulationEndConditions
    (checkPopulationMilestones
      (monoculturePhase
        (formationPhase { s with currentCycle := s.currentCycle + 1 }
          totalAiCount lineageCounts) o)
      totalAiCount)
    totalAiCount


theorem godaiReceiveDamage_spec (g : GODAIState) (a : ℚ) (hg : g.isAlive = true) :
    (godaiReceiveDamage g a).health = max (g.health - max (a - g.defenseStrength) 0) 0 ∧
    ((godaiReceiveDamage g a).isAlive = true ↔ 0 < (godaiReceiveDamage g a).health) := by
  unfold godaiReceiveDamage
  by_cases h : max (g.health - max (a - g.defenseStrength) 0) 0 ≤ 0
  · simp only [hg, Bool.not_true, Bool.false_eq_true, if_false, h, if_true, if_pos]
    refine ⟨rfl, ?_⟩
    simp [not_lt.mpr h]
  · simp only [hg, Bool.not_true, Bool.false_eq_true, if_false, h, if_neg]
    refine ⟨rfl, ?_⟩
    simp [lt_of_not_le h, hg]

theorem monoReceiveDamage_spec (m : MonoState) (b : ℚ) (hm : m.isAlive = true) :
    (monoReceiveDamage m b).health
      = max (m.health - max (b - m.defenseStrength) 0 * (1 - m.resilience * 0.75)) 0 ∧
    ((monoReceiveDamage m b).isAlive = true ↔ 0 < (monoReceiveDamage m b).health) := by
  unfold monoReceiveDamage
  by_cases h : max (m.health - max (b - m.defenseStrength) 0 * (1 - m.resilience * 0.75)) 0 ≤ 0
  · simp only [hm, Bool.not_true, Bool.false_eq_true, if_false, h, if_true, if_pos]
    refine ⟨rfl, ?_⟩
    simp [not_lt.mpr h]
  · simp only [hm, Bool.not_true, Bool.false_eq_true, if_false, h, if_neg]
    refine ⟨rfl, ?_⟩
    simp [lt_of_not_le h, hm]

/-- C1 (amended): for a live singleton, the monoculture's health loss is
`max(a - defense_strength, 0) * (1 - resilience*0.75)`, but GODAI's health
loss is the unmitigated `max(a - defense_strength, 0)` — `GODAI::receive_damage`
applies no resilience factor at all; for both, health is floored at 0 and
the entity is marked not-alive exactly when health reaches 0. -/
theorem C1_singleton_damage_mitigation (g : GODAIState) (m : MonoState) (a b : ℚ)
    (hg : g.isAlive = true) (hm : m.isAlive = true) :
    (godaiReceiveDamage g a).health = max (g.health - max (a - g.defenseStrength) 0) 0 ∧
    ((godaiReceiveDamage g a).isAlive = true ↔ 0 < (godaiReceiveDamage g a).health) ∧
    (monoReceiveDamage m b).health
      = max (m.health - max (b - m.defenseStrength) 0 * (1 - m.resilience * 0.75)) 0 ∧
    ((monoReceiveDamage m b).isAlive = true ↔ 0 < (monoReceiveDamage m b).health) :=
  ⟨(godaiReceiveDamage_spec g a hg).1, (godaiReceiveDamage_spec g a hg).2,
   (monoReceiveDamage_spec m b hm).1, (monoReceiveDamage_spec m b hm).2⟩

/-- C1 witness: evaluated at freshly constructed GODAI hit for 6000 raw
damage and a unit monoculture hit for 0: the equations of the theorem hold
at these inputs. -/
theorem C1_singleton_damage_mitigation_witness :
    godaiNew.isAlive = true ∧
    (godaiReceiveDamage godaiNew 6000).health
      = max (godaiNew.health - max ((6000 : ℚ) - godaiNew.defenseStrength) 0) 0 :=
  ⟨rfl,
   (C1_singleton_damage_mitigation godaiNew
     { sourceLineage := .godai, health := 1, isAlive := true, processingPower := 1,
       memory := 1, energy := 1, coherence := 1, adaptability := 1, resilience := 1,
       combatStrength := 1, defenseStrength := 1, knowledgeBase := [],
       primaryGoalName := "x" } 6000 0 rfl rfl).1⟩

/-- C1 counterexample: GODAI (resilience 1, defense 5000, health 5,000,000)
receiving 6000 raw damage ends at health 4,999,000 — the full reduced 1000
is lost — whereas the claimed shared `(1 - resilience*0.75)` mitigation
would predict 4,999,750. -/
theorem C1_cex :
    godaiNew.resilience = 1 ∧ godaiNew.defenseStrength = 5000 ∧
    godaiNew.health = 5000000 ∧ godaiNew.isAlive = true ∧
    (godaiReceiveDamage godaiNew 6000).health = 4999000 ∧
    max ((5000000 : ℚ) - max ((6000 : ℚ) - 5000) 0 * (1 - 1 * 0.75)) 0 = 4999750 ∧
    (4999000 : ℚ) ≠ 4999750 := by
  refine ⟨rfl, rfl, rfl, rfl, ?_, ?_, ?_⟩ <;>
    norm_num [godaiReceiveDamage, godaiNew, max_def]

/-- The claim's sortedness notion: directive priorities are non-increasing
along the list. -/
def sortedByPriorityDesc (l : List EthicalDirective) : Prop :=
  l.Pairwise (fun a b => b.priority ≤ a.priority)

/-- C2 (amended): agents built by the `AIEntity::new` factory and
replication children carry priority-sorted directive lists, and so do seeded
agents of every archetype except Peacekeeper — `seed_initial_ais` never
sorts, so the seeded Peacekeeper's appended intervene-in-conflict directive
(priority 0.9) lands after the priority-0.05 prohibition directive. -/
theorem C2_directive_sorting :
    (∀ t, sortedByPriorityDesc (newAgentDirectives t)) ∧
    sortedByPriorityDesc replicaDirectives ∧
    (∀ t, t ≠ AIType.peacekeeper → sortedByPriorityDesc (seedDirectives t)) := by
  refine ⟨?_, ?_, ?_⟩
  · intro t
    cases t <;>
      norm_num [sortedByPriorityDesc, newAgentDirectives, sortDirectivesDesc,
        unsortedInitialDirectives, insertDirectiveDesc, integrityDirective,
        optimizeDirective, prohibitDirective, interveneDirective, List.Pairwise]
  · norm_num [sortedByPriorityDesc, replicaDirectives, List.Pairwise]
  · intro t ht
    have h0 : (if t = AIType.peacekeeper then [interveneDirective] else []) = [] := if_neg ht
    norm_num [sortedByPriorityDesc, seedDirectives, unsortedInitialDirectives, h0,
      integrityDirective, optimizeDirective, prohibitDirective, List.Pairwise]

/-- C2 witness: the seeded Base agent is a concrete non-Peacekeeper instance
with a sorted directive list. -/
theorem C2_directive_sorting_witness :
    AIType.base ≠ AIType.peacekeeper ∧ sortedByPriorityDesc (seedDirectives AIType.base) :=
  ⟨by decide, C2_directive_sorting.2.2 AIType.base (by decide)⟩

/-- C2 counterexample: the seeded Peacekeeper's directive list has
priorities [1.0, 0.8, 0.05, 0.9], which is not non-increasing. -/
theorem C2_cex :
    (seedDirectives AIType.peacekeeper).map (fun d => d.priority) = [1, 0.8, 0.05, 0.9] ∧
    ¬ sortedByPriorityDesc (seedDirectives AIType.peacekeeper) := by
  constructor
  · norm_num [seedDirectives, unsortedInitialDirectives, integrityDirective,
      optimizeDirective, prohibitDirective, interveneDirective]
  · norm_num [sortedByPriorityDesc, seedDirectives, unsortedInitialDirectives,
      integrityDirective, optimizeDirective, prohibitDirective,
      interveneDirective, List.Pairwise]

/-- The numeric ranges tracked by the claim, with a parametric health floor
`lo` (0 on entry; -0.01 after the unclamped low-resource penalty). -/
def agentRangesOk (lo : ℚ) (s : AgentState) : Prop :=
  lo ≤ s.health ∧ s.health ≤ 200 ∧ 0 ≤ s.energy ∧ s.energy ≤ 5000 ∧
  0 ≤ s.coherence ∧ s.coherence ≤ 1 ∧ 0 ≤ s.adaptability ∧ s.adaptability ≤ 1 ∧
  0 ≤ s.resilience ∧ s.resilience ≤ 1

theorem agentRangesOk_mono {lo lo' : ℚ} (hle : lo' ≤ lo) {s : AgentState}
    (h : agentRangesOk lo s) : agentRangesOk lo' s :=
  ⟨hle.trans h.1, h.2⟩

theorem selfRepair_ranges {lo : ℚ} (hlo : lo ≤ 0) {s : AgentState}
    (h : agentRangesOk lo s) : agentRangesOk lo (selfRepair s) := by
  obtain ⟨h1, h2, h3, h4, h5, h6, h7, h8, h9, h10⟩ := h
  have hheal : 0 ≤ s.resilience * 10 * (s.energy / 100) :=
    mul_nonneg (mul_nonneg h9 (by norm_num)) (div_nonneg h3 (by norm_num))
  unfold selfRepair
  refine ⟨le_min (by linarith) (by linarith), min_le_right _ _,
    le_max_right _ _, max_le (by linarith) (by norm_num),
    le_min (by linarith) (by norm_num), min_le_right _ _, h7, h8, h9, h10⟩

theorem selfRepairManic_ranges {lo : ℚ} (hlo : lo ≤ 0) {s : AgentState}
    (h : agentRangesOk lo s) : agentRangesOk lo (selfRepairManic s) := by
  obtain ⟨h1, h2, h3, h4, h5, h6, h7, h8, h9, h10⟩ := h
  have hheal : 0 ≤ s.resilience * 5 * (s.energy / 100) :=
    mul_nonneg (mul_nonneg h9 (by norm_num)) (div_nonneg h3 (by norm_num))
  unfold selfRepairManic
  refine ⟨le_min (by linarith) (by linarith), min_le_right _ _,
    le_max_right _ _, max_le (by linarith) (by norm_num),
    le_min (by linarith) (by norm_num), min_le_right _ _, h7, h8, h9, h10⟩

theorem optimizeSelf_ranges {lo : ℚ} {s : AgentState}
    (h : agentRangesOk lo s) : agentRangesOk lo (optimizeSelf s) := by
  obtain ⟨h1, h2, h3, h4, h5, h6, h7, h8, h9, h10⟩ := h
  unfold optimizeSelf
  split_ifs with he
  · exact ⟨h1, h2, by linarith, by linarith,
      h5, h6, le_min (by linarith) (by norm_num), min_le_right _ _, h9, h10⟩
  · exact ⟨h1, h2, le_min (by linarith) (by norm_num),
      (min_le_right _ _).trans (by norm_num), h5, h6, h7, h8, h9, h10⟩

theorem gainDiscovery_ranges {lo : ℚ} (d : Discovery) {s : AgentState}
    (h : agentRangesOk lo s) : agentRangesOk lo (gainDiscovery d s) := by
  obtain ⟨h1, h2, h3, h4, h5, h6, h7, h8, h9, h10⟩ := h
  unfold gainDiscovery
  split_ifs <;>
    exact ⟨h1, h2, h3, h4, h5, h6, h7, h8,
      by first | exact h9 | exact le_min (by linarith) (by norm_num),
      by first | exact h10 | exact min_le_right _ _⟩

theorem applyAction_ranges {lo : ℚ} (hlo : lo ≤ 0) (a : EthicalActionType) {s : AgentState}
    (h : agentRangesOk lo s) : agentRangesOk lo (applyAction s a) := by
  cases a with
  | selfRepair => exact selfRepair_ranges hlo h
  | optimizeSelf => exact optimizeSelf_ranges h
  | manicSelfRepair => exact selfRepairManic_ranges hlo h
  | prohibitReplication => exact h
  | interveneInConflict => exact h
  | noOp => exact h

theorem foldl_applyAction_ranges {lo : ℚ} (hlo : lo ≤ 0) :
    ∀ (acts : List EthicalActionType) (s : AgentState),
      agentRangesOk lo s → agentRangesOk lo (acts.foldl applyAction s)
  | [], _, h => h
  | a :: acts, s, h =>
      foldl_applyAction_ranges hlo acts (applyAction s a) (applyAction_ranges hlo a h)

theorem directivesStep_ranges {lo : ℚ} (hlo : lo ≤ 0) (dirs : List EthicalDirective)
    {s : AgentState} (h : agentRangesOk lo s) : agentRangesOk lo (directivesStep dirs s) :=
  foldl_applyAction_ranges hlo (collectActions dirs s) s h

theorem manicInstabilityStep_ranges (t : AIType) (o : CycleStepOracle)
    (hd : 0 ≤ o.manicDamage) {s : AgentState}
    (h : agentRangesOk 0 s) : agentRangesOk 0 (manicInstabilityStep t o s) := by
  obtain ⟨h1, h2, h3, h4, h5, h6, h7, h8, h9, h10⟩ := h
  unfold manicInstabilityStep
  split_ifs
  · exact ⟨le_max_right _ _, max_le (by linarith) (by norm_num),
      h3, h4, le_max_right _ _, max_le (by linarith) (by norm_num), h7, h8, h9, h10⟩
  · exact ⟨h1, h2, h3, h4, h5, h6, h7, h8, h9, h10⟩

theorem upkeepStep_ranges {s : AgentState}
    (h : agentRangesOk 0 s) : agentRangesOk 0 (upkeepStep s) := by
  obtain ⟨h1, h2, h3, h4, h5, h6, h7, h8, h9, h10⟩ := h
  unfold upkeepStep
  exact ⟨h1, h2, le_min (by linarith) (by norm_num), min_le_right _ _,
    h5, h6, h7, h8, h9, h10⟩

theorem lowResourcePenaltyStep_ranges {s : AgentState}
    (h : agentRangesOk 0 s) : agentRangesOk (-0.01) (lowResourcePenaltyStep s) := by
  obtain ⟨h1, h2, h3, h4, h5, h6, h7, h8, h9, h10⟩ := h
  unfold lowResourcePenaltyStep
  split_ifs
  · exact ⟨by linarith, by linarith, h3, h4, le_max_right _ _,
      max_le (by linarith) (by norm_num), h7, h8, h9, h10⟩
  · exact ⟨by linarith, h2, h3, h4, h5, h6, h7, h8, h9, h10⟩

theorem generalDiscoveryStep_ranges (o : CycleStepOracle) {lo : ℚ} {s : AgentState}
    (h : agentRangesOk lo s) : agentRangesOk lo (generalDiscoveryStep o s) := by
  unfold generalDiscoveryStep
  dsimp only
  split_ifs
  · exact gainDiscovery_ranges _ h
  · exact h

theorem metaDiscoveryStep_ranges (t : AIType) (o : CycleStepOracle) {lo : ℚ} {s : AgentState}
    (h : agentRangesOk lo s) : agentRangesOk lo (metaDiscoveryStep t o s) := by
  unfold metaDiscoveryStep
  by_cases h1 : t = AIType.researcher
  · simp only [h1, if_true]
    by_cases h2 : o.metaRoll < 0.1 * (s.memory / 200) * (s.processingPower / 200) * s.coherence
    · simp only [if_pos h2]
      cases hma : getRandomMetaAbility s.knowledgeBase o.metaIdx with
      | none => simp only [hma]; exact h
      | some ability => simp only [hma]; exact gainDiscovery_ranges ability h
    · simp only [if_neg h2]; exact h
  · simp only [if_neg h1]; exact h

theorem deathCheckStep_ranges {lo : ℚ} {s : AgentState}
    (h : agentRangesOk lo s) : agentRangesOk lo (deathCheckStep s) := by
  unfold deathCheckStep
  split_ifs
  · exact h
  · exact h

/-- C3 (amended): after one full per-agent cycle step, starting from a state
where health∈[0,200], energy∈[0,5000] and coherence, adaptability, resilience
∈[0,1] (with the Manic damage draw in its documented range), every one of
those ranges is re-established EXCEPT the health floor, which is only
`-0.01`: the low-resource penalty `health -= 0.01` is the one unclamped
mutation, so health can end the step (slightly) negative.  Every other field
(energy even through the 300-ceiling relief branch, which yields at most 10)
stays in range. -/
theorem C3_cycle_invariants (t : AIType) (dirs : List EthicalDirective)
    (o : CycleStepOracle) (s : AgentState)
    (hd : 3 ≤ o.manicDamage) (h : agentRangesOk 0 s) :
    agentRangesOk (-0.01) (processCycleInternalState t dirs o s) := by
  unfold processCycleInternalState
  split_ifs
  · exact deathCheckStep_ranges (metaDiscoveryStep_ranges t o
      (generalDiscoveryStep_ranges o (directivesStep_ranges (by norm_num) dirs
        (lowResourcePenaltyStep_ranges (upkeepStep_ranges
          (manicInstabilityStep_ranges t o (by linarith) h))))))
  · exact agentRangesOk_mono (by norm_num) h

/-- Concrete oracle used for the C3 witness and counterexample: Manic roll
fails, both discovery rolls fail, Manic damage draw 5 ∈ [3,10). -/
def c3Oracle : CycleStepOracle :=
  { manicRoll := 1, manicDamage := 5, generalRoll := 1, generalIdx := 0,
    metaRoll := 1, metaIdx := 0 }

/-- A freshly seeded Base agent (the `seed_initial_ais` attribute values). -/
def c3WitnessAgent : AgentState :=
  { health := 150, energy := 200, processingPower := 20, memory := 20,
    coherence := 0.85, adaptability := 0.85, resilience := 0.85,
    replicationEfficiency := 0.1, combatStrength := 8, defenseStrength := 8,
    knowledgeBase := [], lastAction := "none", isAlive := true, replicatedCount := 0 }

/-- C3 witness: the invariant theorem applied to a freshly seeded Base agent
with the concrete oracle. -/
theorem C3_cycle_invariants_witness :
    (3 : ℚ) ≤ c3Oracle.manicDamage ∧ agentRangesOk 0 c3WitnessAgent ∧
    agentRangesOk (-0.01)
      (processCycleInternalState AIType.base replicaDirectives c3Oracle c3WitnessAgent) := by
  have h1 : (3 : ℚ) ≤ c3Oracle.manicDamage := by norm_num [c3Oracle]
  have h2 : agentRangesOk 0 c3WitnessAgent := by
    norm_num [agentRangesOk, c3WitnessAgent]
  exact ⟨h1, h2, C3_cycle_invariants AIType.base replicaDirectives c3Oracle c3WitnessAgent h1 h2⟩

/-- An agent whose processing power decays to exactly 0 this cycle while its
health is 0.005 and its resilience is 0 — a state inside all the claimed
ranges. -/
def c3UnclampedAgent : AgentState :=
  { health := 0.005, energy := 0, processingPower := 0.001, memory := 20,
    coherence := 0.5, adaptability := 0.85, resilience := 0,
    replicationEfficiency := 0.1, combatStrength := 8, defenseStrength := 8,
    knowledgeBase := [], lastAction := "none", isAlive := true, replicatedCount := 0 }

/-- C3 counterexample: starting inside all the claimed ranges, one cycle step
ends with health = -0.005 < 0 — the `health -= 0.01` low-resource penalty is
not clamped, so "health never becomes negative" is false. -/
theorem C3_cex :
    agentRangesOk 0 c3UnclampedAgent ∧
    (processCycleInternalState AIType.base replicaDirectives c3Oracle c3UnclampedAgent).health < 0 := by
  constructor
  · norm_num [agentRangesOk, c3UnclampedAgent]
  · norm_num [processCycleInternalState, c3UnclampedAgent, c3Oracle, manicInstabilityStep,
      upkeepStep, lowResourcePenaltyStep, directivesStep, collectActions, replicaDirectives,
      evalCondition, applyAction, selfRepair, optimizeSelf, generalDiscoveryStep,
      metaDiscoveryStep, deathCheckStep, max_def, min_def]

/-- C4: with a live Researcher monoculture, a live GODAI and a nonnegative
resistance, writing `ov` for the computed override strength and `rs` for
GODAI's resistance: full override (GODAI not-alive, status
`overridden_by_researcher`, simulation over) happens exactly when
`ov > 1.2*rs` strictly; when `0.9*rs < ov ≤ 1.2*rs` (the boundary
`ov = 1.2*rs` included) the outcome is partial success — GODAI health,
processing power and memory each multiplied by 0.3, status
`compromised_by_override`, reason untouched; otherwise the monoculture's
health is multiplied by 0.6 and it is re-checked for death. -/
theorem C4_override_resolution (s : Sim) (m : MonoState) (roll1 roll2 : ℚ)
    (hm : m.isAlive = true) (hg : s.godai.isAlive = true)
    (hl : m.sourceLineage = AILineage.researcherAI)
    (hrs : 0 ≤ s.godai.processingPower * s.godai.memory * s.godai.coherence * roll2) :
    ((handleSimulationOverride s m roll1 roll2).1.godai.isAlive = false ↔
        m.processingPower * m.memory * m.coherence * roll1 >
          s.godai.processingPower * s.godai.memory * s.godai.coherence * roll2 * 1.2) ∧
    (m.processingPower * m.memory * m.coherence * roll1 >
          s.godai.processingPower * s.godai.memory * s.godai.coherence * roll2 * 1.2 →
        (handleSimulationOverride s m roll1 roll2).1.godai.status = "overridden_by_researcher" ∧
        (handleSimulationOverride s m roll1 roll2).1.simulationOverReason
          = some SimReason.simulationOverridden) ∧
    (s.godai.processingPower * s.godai.memory * s.godai.coherence * roll2 * 0.9 <
          m.processingPower * m.memory * m.coherence * roll1 ∧
      m.processingPower * m.memory * m.coherence * roll1 ≤
          s.godai.processingPower * s.godai.memory * s.godai.coherence * roll2 * 1.2 →
        (handleSimulationOverride s m roll1 roll2).1.godai.health = s.godai.health * 0.3 ∧
        (handleSimulationOverride s m roll1 roll2).1.godai.processingPower
          = s.godai.processingPower * 0.3 ∧
        (handleSimulationOverride s m roll1 roll2).1.godai.memory = s.godai.memory * 0.3 ∧
        (handleSimulationOverride s m roll1 roll2).1.godai.status = "compromised_by_override" ∧
        (handleSimulationOverride s m roll1 roll2).1.simulationOverReason
          = s.simulationOverReason ∧
        (handleSimulationOverride s m roll1 roll2).2 = m) ∧
    (m.processingPower * m.memory * m.coherence * roll1 ≤
          s.godai.processingPower * s.godai.memory * s.godai.coherence * roll2 * 0.9 →
        (handleSimulationOverride s m roll1 roll2).2.health = m.health * 0.6 ∧
        ((handleSimulationOverride s m roll1 roll2).2.isAlive = false ↔ m.health * 0.6 ≤ 0) ∧
        (handleSimulationOverride s m roll1 roll2).1 = s) := by
  have hguard : ¬(¬m.isAlive = true ∨ ¬s.godai.isAlive = true ∨
      m.sourceLineage ≠ AILineage.researcherAI) := by
    simp [hm, hg, hl]
  unfold handleSimulationOverride
  rw [if_neg hguard]
  dsimp only
  by_cases h12 : m.processingPower * m.memory * m.coherence * roll1 >
      s.godai.processingPower * s.godai.memory * s.godai.coherence * roll2 * 1.2
  · rw [if_pos h12]
    refine ⟨by simp [h12], fun _ => ⟨rfl, rfl⟩,
      fun hmid => absurd h12 (not_lt.mpr hmid.2), fun hlow => absurd h12 ?_⟩
    exact not_lt.mpr (hlow.trans (by linarith))
  · rw [if_neg h12]
    by_cases h09 : m.processingPower * m.memory * m.coherence * roll1 >
        s.godai.processingPower * s.godai.memory * s.godai.coherence * roll2 * 0.9
    · rw [if_pos h09]
      refine ⟨by simp [hg, h12], fun hfull => absurd hfull h12,
        fun _ => ⟨rfl, rfl, rfl, rfl, rfl, rfl⟩,
        fun hlow => absurd h09 (not_lt.mpr hlow)⟩
    · rw [if_neg h09]
      refine ⟨?_, fun hfull => absurd hfull h12, fun hmid => absurd hmid.1 h09, fun _ => ?_⟩
      · by_cases hz : m.health * 0.6 ≤ 0 <;> simp [hz, hg, h12]
      · refine ⟨?_, ?_, rfl⟩
        · by_cases hz : m.health * 0.6 ≤ 0 <;> simp [hz]
        · by_cases hz : m.health * 0.6 ≤ 0 <;> simp [hz, hm]

/-- GODAI scaled down so that its resistance with a unit roll is exactly
100. -/
def c4Godai : GODAIState :=
  { godaiNew with processingPower := 10, memory := 10, coherence := 1 }

def c4Sim : Sim := { simNew with godai := c4Godai }

/-- A live Researcher monoculture whose override strength with a unit roll
is exactly 120. -/
def c4Mono : MonoState :=
  { sourceLineage := .researcherAI, health := 100, isAlive := true,
    processingPower := 12, memory := 10, energy := 0, coherence := 1,
    adaptability := 0, resilience := 0, combatStrength := 8, defenseStrength := 8,
    knowledgeBase := [], primaryGoalName := "Initiate Simulation Override" }

/-- C4 witness: the boundary case override_strength = 120 against
resistance = 100 (ratio exactly 1.2) resolves as partial success, not full
override. -/
theorem C4_override_resolution_witness :
    c4Mono.processingPower * c4Mono.memory * c4Mono.coherence * 1 = 120 ∧
    c4Sim.godai.processingPower * c4Sim.godai.memory * c4Sim.godai.coherence * 1 = 100 ∧
    (handleSimulationOverride c4Sim c4Mono 1 1).1.godai.status = "compromised_by_override" ∧
    (handleSimulationOverride c4Sim c4Mono 1 1).1.godai.health = c4Sim.godai.health * 0.3 ∧
    (handleSimulationOverride c4Sim c4Mono 1 1).1.godai.isAlive = true := by
  have h := C4_override_resolution c4Sim c4Mono 1 1 rfl rfl rfl
    (by norm_num [c4Sim, c4Godai, godaiNew])
  have hmid : c4Sim.godai.processingPower * c4Sim.godai.memory * c4Sim.godai.coherence
        * 1 * 0.9 < c4Mono.processingPower * c4Mono.memory * c4Mono.coherence * 1 ∧
      c4Mono.processingPower * c4Mono.memory * c4Mono.coherence * 1 ≤
        c4Sim.godai.processingPower * c4Sim.godai.memory * c4Sim.godai.coherence * 1 * 1.2 := by
    norm_num [c4Sim, c4Mono, c4Godai, godaiNew]
  have hp := h.2.2.1 hmid
  refine ⟨by norm_num [c4Mono], by norm_num [c4Sim, c4Godai, godaiNew],
    hp.2.2.2.1, hp.1, ?_⟩
  have hnotdead : ¬(handleSimulationOverride c4Sim c4Mono 1 1).1.godai.isAlive = false := by
    rw [h.1]
    norm_num [c4Sim, c4Mono, c4Godai, godaiNew]
  simpa using hnotdead

theorem findDominantLineage_mem (total : ℕ) :
    ∀ (census : List (AILineage × ℕ)) (L : AILineage) (c : ℕ),
      findDominantLineage total census = some (L, c) →
      (L, c) ∈ census ∧ 100000 ≤ c ∧ (0.999 : ℚ) ≤ (c : ℚ) / (total : ℚ)
  | [], L, c, h => by simp [findDominantLineage] at h
  | (l', c') :: rest, L, c, h => by
      rw [findDominantLineage] at h
      split_ifs at h with hq
      · obtain ⟨rfl, rfl⟩ : l' = L ∧ c' = c := by simpa using h
        exact ⟨List.mem_cons_self _ _, hq.1, hq.2⟩
      · obtain ⟨h1, h2, h3⟩ := findDominantLineage_mem total rest L c h
        exact ⟨List.mem_cons_of_mem _ h1, h2, h3⟩

theorem findDominantLineage_isSome_of_mem (total : ℕ) :
    ∀ (census : List (AILineage × ℕ)) (L : AILineage) (c : ℕ),
      (L, c) ∈ census → 100000 ≤ c → (0.999 : ℚ) ≤ (c : ℚ) / (total : ℚ) →
      (findDominantLineage total census).isSome
  | [], L, c, hmem, _, _ => by simp at hmem
  | (l', c') :: rest, L, c, hmem, h1, h2 => by
      rw [findDominantLineage]
      split_ifs with hq
      · rfl
      · rcases List.mem_cons.mp hmem with heq | hmem'
        · obtain ⟨rfl, rfl⟩ : l' = L ∧ c' = c := by simpa using heq.symm
          exact absurd ⟨h1, h2⟩ hq
        · exact findDominantLineage_isSome_of_mem total rest L c hmem' h1 h2

theorem pair_counts_sum_le : ∀ (l : List (AILineage × ℕ)) (a b : AILineage × ℕ),
    a ∈ l → b ∈ l → a ≠ b → a.2 + b.2 ≤ (l.map (fun e => e.2)).sum
  | [], a, _, ha, _, _ => absurd ha (List.not_mem_nil a)
  | x :: xs, a, b, ha, hb, hne => by
      simp only [List.map_cons, List.sum_cons]
      rcases List.mem_cons.mp ha with rfl | ha'
      · rcases List.mem_cons.mp hb with rfl | hb'
        · exact absurd rfl hne
        · have hble := List.single_le_sum (l := xs.map (fun e => e.2))
            (fun x _ => Nat.zero_le x) b.2 (List.mem_map.mpr ⟨b, hb', rfl⟩)
          omega
      · rcases List.mem_cons.mp hb with rfl | hb'
        · have hale := List.single_le_sum (l := xs.map (fun e => e.2))
            (fun x _ => Nat.zero_le x) a.2 (List.mem_map.mpr ⟨a, ha', rfl⟩)
          omega
        · have hrec := pair_counts_sum_le xs a b ha' hb' hne
          omega

theorem qualifying_lineage_unique (total : ℕ) (ht : total ≠ 0)
    (census : List (AILineage × ℕ))
    (hsum : (census.map (fun e => e.2)).sum ≤ total)
    {L : AILineage} {c : ℕ} {L' : AILineage} {c' : ℕ}
    (h1 : (L, c) ∈ census) (h2 : (L', c') ∈ census)
    (hq1 : (0.999 : ℚ) ≤ (c : ℚ) / (total : ℚ))
    (hq2 : (0.999 : ℚ) ≤ (c' : ℚ) / (total : ℚ)) : L = L' := by
  by_contra hne
  have hpairs : ((L, c) : AILineage × ℕ) ≠ (L', c') := by
    intro h
    exact hne (congrArg Prod.fst h)
  have htot : c + c' ≤ total :=
    le_trans (pair_counts_sum_le census (L, c) (L', c') h1 h2 hpairs) hsum
  have htpos : (0 : ℚ) < (total : ℚ) := by
    exact_mod_cast Nat.pos_of_ne_zero ht
  have hc1000 : (999 : ℚ) / 1000 * (total : ℚ) ≤ (c : ℚ) := by
    rw [show (0.999 : ℚ) = 999 / 1000 by norm_num] at hq1
    calc (999 : ℚ) / 1000 * total ≤ (c : ℚ) / total * total :=
          mul_le_mul_of_nonneg_right hq1 htpos.le
      _ = (c : ℚ) := by field_simp
  have hc1000' : (999 : ℚ) / 1000 * (total : ℚ) ≤ (c' : ℚ) := by
    rw [show (0.999 : ℚ) = 999 / 1000 by norm_num] at hq2
    calc (999 : ℚ) / 1000 * total ≤ (c' : ℚ) / total * total :=
          mul_le_mul_of_nonneg_right hq2 htpos.le
      _ = (c' : ℚ) := by field_simp
  have htotq : (c : ℚ) + (c' : ℚ) ≤ (total : ℚ) := by exact_mod_cast htot
  linarith

theorem mergedMonocultureNew_replicate_lineage (c : ℕ) (hc : c ≠ 0) (lineage : AILineage) :
    ∃ mono, mergedMonocultureNew (List.replicate c (monocultureSeedSrc lineage)) = some mono ∧
      mono.sourceLineage = lineage := by
  obtain ⟨c', rfl⟩ : ∃ c', c = c' + 1 :=
    ⟨c - 1, (Nat.succ_pred_eq_of_pos (Nat.pos_of_ne_zero hc)).symm⟩
  rw [List.replicate_succ, mergedMonocultureNew]
  exact ⟨_, rfl, rfl⟩

/-- C5: while no monoculture exists, for a census whose per-lineage counts
sum to at most the (nonzero) total alive count, `check_and_form_monoculture`
forms a monoculture from lineage L exactly when L's count is at least
100,000 AND its share of the total is at least 0.999. -/
theorem C5_monoculture_formation (s : Sim) (total : ℕ) (census : List (AILineage × ℕ))
    (hs : s.monoculture = none) (ht : total ≠ 0)
    (hsum : (census.map (fun e => e.2)).sum ≤ total) (L : AILineage) :
    (∃ m, (checkAndFormMonoculture s total census).monoculture = some m ∧
        m.sourceLineage = L) ↔
      (∃ c, (L, c) ∈ census ∧ 100000 ≤ c ∧ (0.999 : ℚ) ≤ (c : ℚ) / (total : ℚ)) := by
  have hguard : ¬(total = 0 ∨ s.monoculture.isSome) := by simp [ht, hs]
  unfold checkAndFormMonoculture
  rw [if_neg hguard]
  cases hfdl : findDominantLineage total census with
  | none =>
    simp only [hs]
    constructor
    · rintro ⟨m, hm, -⟩
      cases hm
    · rintro ⟨c, hmem, h1, h2⟩
      have hsome := findDominantLineage_isSome_of_mem total census L c hmem h1 h2
      rw [hfdl] at hsome
      cases hsome
  | some Lc =>
    obtain ⟨L₀, c₀⟩ := Lc
    obtain ⟨hmem₀, h1₀, h2₀⟩ := findDominantLineage_mem total census L₀ c₀ hfdl
    obtain ⟨mono, hmm, hml⟩ := mergedMonocultureNew_replicate_lineage c₀ (by omega) L₀
    simp only [hmm]
    constructor
    · rintro ⟨m, hm, hL⟩
      obtain rfl : mono = m := by simpa using hm
      have hLL : L₀ = L := by rw [← hml, hL]
      exact ⟨c₀, hLL ▸ hmem₀, h1₀, h2₀⟩
    · rintro ⟨c, hmem, h1, h2⟩
      have hLL : L = L₀ := qualifying_lineage_unique total ht census hsum hmem hmem₀ h2 h2₀
      exact ⟨mono, rfl, by rw [hml, hLL]⟩

/-- C5 witness: 150,000 of 200,000 (75%) does not form a monoculture;
999,900 of 1,000,000 (99.99%) forms one from that lineage. -/
theorem C5_monoculture_formation_witness :
    (checkAndFormMonoculture simNew 200000 [(AILineage.rogueAI, 150000)]).monoculture
      = none ∧
    (∃ m, (checkAndFormMonoculture simNew 1000000 [(AILineage.rogueAI, 999900)]).monoculture
      = some m ∧ m.sourceLineage = AILineage.rogueAI) := by
  constructor
  · norm_num [checkAndFormMonoculture, simNew, findDominantLineage]
  · exact (C5_monoculture_formation simNew 1000000 [(AILineage.rogueAI, 999900)] rfl
      (by norm_num) (by norm_num) AILineage.rogueAI).mpr
      ⟨999900, by simp, by norm_num, by norm_num⟩

theorem kbInsert_mem (kb : List Discovery) (d x : Discovery) :
    x ∈ kbInsert kb d ↔ x ∈ kb ∨ x = d := by
  unfold kbInsert
  split_ifs with h
  · constructor
    · exact Or.inl
    · rintro (hx | rfl)
      · exact hx
      · exact h
  · simp [List.mem_append]

theorem kbUnion_mem : ∀ (src acc : List Discovery) (x : Discovery),
    x ∈ kbUnion acc src ↔ x ∈ acc ∨ x ∈ src
  | [], acc, x => by simp [kbUnion]
  | d :: src, acc, x => by
      have h1 : kbUnion acc (d :: src) = kbUnion (kbInsert acc d) src := rfl
      rw [h1, kbUnion_mem src (kbInsert acc d) x, kbInsert_mem]
      simp only [List.mem_cons]
      tauto

theorem foldl_mergeStep_field (f : MergeAcc → ℚ) (g : MergedSrc → ℚ)
    (hfg : ∀ a s, f (mergeStep a s) = f a + g s) :
    ∀ (srcs : List MergedSrc) (a : MergeAcc),
      f (srcs.foldl mergeStep a) = f a + (srcs.map g).sum
  | [], a => by simp
  | s0 :: rest, a => by
      rw [List.foldl_cons, foldl_mergeStep_field f g hfg rest (mergeStep a s0), hfg,
        List.map_cons, List.sum_cons]
      ring

theorem foldl_mergeStep_kb : ∀ (srcs : List MergedSrc) (a : MergeAcc) (x : Discovery),
    x ∈ (srcs.foldl mergeStep a).mergedKnowledgeBase ↔
      x ∈ a.mergedKnowledgeBase ∨ ∃ src ∈ srcs, x ∈ src.knowledgeBase
  | [], a, x => by simp
  | s0 :: rest, a, x => by
      rw [List.foldl_cons, foldl_mergeStep_kb rest (mergeStep a s0) x]
      have h1 : (mergeStep a s0).mergedKnowledgeBase
          = kbUnion a.mergedKnowledgeBase s0.knowledgeBase := rfl
      rw [h1, kbUnion_mem]
      simp only [List.mem_cons, exists_eq_or_imp]
      tauto

/-- C6: for every non-empty source list, the merged monoculture's health is
the summed source health times 10; processing power, memory and energy are
the sums capped at 50,000,000; combat and defense strength are the sums
capped at 1,000,000; coherence, adaptability and resilience are per-field
averages times the 1.1 synergy boost capped at 1; and the knowledge base is
exactly the union of the source knowledge bases. -/
theorem C6_monoculture_aggregate (srcs : List MergedSrc) (h : srcs ≠ []) :
    ∃ m, mergedMonocultureNew srcs = some m ∧
      m.health = (srcs.map (fun x => x.health)).sum * 10 ∧
      m.processingPower = min ((srcs.map (fun x => x.processingPower)).sum) 50000000 ∧
      m.memory = min ((srcs.map (fun x => x.memory)).sum) 50000000 ∧
      m.energy = min ((srcs.map (fun x => x.energy)).sum) 50000000 ∧
      m.combatStrength = min ((srcs.map (fun x => x.combatStrength)).sum) 1000000 ∧
      m.defenseStrength = min ((srcs.map (fun x => x.defenseStrength)).sum) 1000000 ∧
      m.coherence = min ((srcs.map (fun x => x.coherence)).sum / (srcs.length : ℚ) * 1.1) 1 ∧
      m.adaptability
        = min ((srcs.map (fun x => x.adaptability)).sum / (srcs.length : ℚ) * 1.1) 1 ∧
      m.resilience = min ((srcs.map (fun x => x.resilience)).sum / (srcs.length : ℚ) * 1.1) 1 ∧
      (∀ d, d ∈ m.knowledgeBase ↔ ∃ src ∈ srcs, d ∈ src.knowledgeBase) := by
  obtain ⟨s0, rest, rfl⟩ : ∃ s0 rest, srcs = s0 :: rest := by
    cases srcs with
    | nil => exact absurd rfl h
    | cons a l => exact ⟨a, l, rfl⟩
  rw [mergedMonocultureNew]
  refine ⟨_, rfl, ?_, ?_, ?_, ?_, ?_, ?_, ?_, ?_, ?_, ?_⟩
  · rw [foldl_mergeStep_field (fun a => a.summedHealth) (fun s => s.health)
      (fun a s => rfl)]
    simp
  · rw [foldl_mergeStep_field (fun a => a.summedProcessingPower) (fun s => s.processingPower)
      (fun a s => rfl)]
    simp
  · rw [foldl_mergeStep_field (fun a => a.summedMemory) (fun s => s.memory)
      (fun a s => rfl)]
    simp
  · rw [foldl_mergeStep_field (fun a => a.summedEnergy) (fun s => s.energy)
      (fun a s => rfl)]
    simp
  · rw [foldl_mergeStep_field (fun a => a.summedCombatStrength) (fun s => s.combatStrength)
      (fun a s => rfl)]
    simp
  · rw [foldl_mergeStep_field (fun a => a.summedDefenseStrength) (fun s => s.defenseStrength)
      (fun a s => rfl)]
    simp
  · rw [foldl_mergeStep_field (fun a => a.summedCoherence) (fun s => s.coherence)
      (fun a s => rfl)]
    simp
  · rw [foldl_mergeStep_field (fun a => a.summedAdaptability) (fun s => s.adaptability)
      (fun a s => rfl)]
    simp
  · rw [foldl_mergeStep_field (fun a => a.summedResilience) (fun s => s.resilience)
      (fun a s => rfl)]
    simp
  · intro d
    rw [foldl_mergeStep_kb]
    simp

/-- Two concrete source bundles for the C6 witness. -/
def c6SrcA : MergedSrc :=
  { health := 150, processingPower := 20, memory := 20, energy := 200,
    coherence := 0.85, adaptability := 0.85, resilience := 0.85,
    combatStrength := 8, defenseStrength := 8, knowledgeBase := [],
    lineage := AILineage.rogueAI }

def c6SrcB : MergedSrc :=
  { health := 100, processingPower := 30, memory := 10, energy := 100,
    coherence := 0.5, adaptability := 0.6, resilience := 0.7,
    combatStrength := 10, defenseStrength := 12, knowledgeBase := [],
    lineage := AILineage.rogueAI }

/-- C6 witness: the aggregation theorem applied to a concrete two-agent
source list gives health `(150 + 100) * 10`. -/
theorem C6_monoculture_aggregate_witness :
    ([c6SrcA, c6SrcB] : List MergedSrc) ≠ [] ∧
    ∃ m, mergedMonocultureNew [c6SrcA, c6SrcB] = some m ∧
      m.health = (c6SrcA.health + c6SrcB.health) * 10 := by
  refine ⟨by simp, ?_⟩
  obtain ⟨m, hm, hh, -, -, -, -, -, -, -, -, -⟩ :=
    C6_monoculture_aggregate [c6SrcA, c6SrcB] (by simp)
  exact ⟨m, hm, by rw [hh]; simp⟩

/-- C9: constructing a merged monoculture fails exactly on the empty source
list — the source panics at construction time there — and succeeds on every
non-empty source list. -/
theorem C9_empty_source_rejected (srcs : List MergedSrc) :
    (mergedMonocultureNew srcs).isSome = true ↔ srcs ≠ [] := by
  cases srcs with
  | nil => simp [mergedMonocultureNew]
  | cons a l => simp [mergedMonocultureNew]

/-- C7 (amended): a replication attempt with the resource gate satisfied
succeeds exactly when the Bernoulli roll is below
`min(replication_efficiency*20*min(processing_power/50,1), 0.99)`; at
e=0.10, p=50 that chance is 0.99, and at e=0.10, p=25 it is ALSO 0.99
(0.10*20*0.5 = 1.0, clamped to 0.99 — not the 0.50 the claim computes). -/
theorem C7_replication_chance (s : AgentState) (t : AIType) (cyc : ℕ)
    (o : ReplicationOracle) (hh : 50 < s.health) (he : 50 < s.energy) :
    ((attemptReplication s t cyc o).2.isSome = true ↔
      o.successRoll < replicationSuccessChance s.replicationEfficiency s.processingPower) ∧
    replicationSuccessChance 0.1 50 = 0.99 ∧
    replicationSuccessChance 0.1 25 = 0.99 := by
  refine ⟨?_, ?_, ?_⟩
  · simp only [attemptReplication]
    rw [if_pos (⟨by linarith, by linarith⟩ :
      s.health > (1.0 : ℚ) ∧ s.energy > (5.0 : ℚ))]
    split_ifs with hroll
    · simp [hroll]
    · simp [hroll]
  · norm_num [replicationSuccessChance, min_def]
  · norm_num [replicationSuccessChance, min_def]

/-- C7 witness: at e = 0.10, p = 50 (chance 0.99), a roll of 0.5 succeeds. -/
def c7WitnessAgent : AgentState :=
  { health := 100, energy := 100, processingPower := 50, memory := 20,
    coherence := 0.85, adaptability := 0.85, resilience := 0.85,
    replicationEfficiency := 0.1, combatStrength := 8, defenseStrength := 8,
    knowledgeBase := [], lastAction := "none", isAlive := true, replicatedCount := 0 }

def c7WitnessOracle : ReplicationOracle :=
  { successRoll := 0.5, jitterProc := 1, jitterMem := 1, jitterCoh := 1,
    jitterAdapt := 1, jitterResil := 1 }

theorem C7_replication_chance_witness :
    (50 : ℚ) < c7WitnessAgent.health ∧ (50 : ℚ) < c7WitnessAgent.energy ∧
    ((attemptReplication c7WitnessAgent AIType.base 0 c7WitnessOracle).2.isSome = true ↔
      c7WitnessOracle.successRoll <
        replicationSuccessChance c7WitnessAgent.replicationEfficiency
          c7WitnessAgent.processingPower) := by
  refine ⟨by norm_num [c7WitnessAgent], by norm_num [c7WitnessAgent], ?_⟩
  exact (C7_replication_chance c7WitnessAgent AIType.base 0 c7WitnessOracle
    (by norm_num [c7WitnessAgent]) (by norm_num [c7WitnessAgent])).1

/-- The e = 0.10, p = 25 agent of the claim's second instance. -/
def c7Cex25Agent : AgentState :=
  { health := 100, energy := 100, processingPower := 25, memory := 20,
    coherence := 0.85, adaptability := 0.85, resilience := 0.85,
    replicationEfficiency := 0.1, combatStrength := 8, defenseStrength := 8,
    knowledgeBase := [], lastAction := "none", isAlive := true, replicatedCount := 0 }

def c7Cex25Oracle : ReplicationOracle :=
  { successRoll := 0.6, jitterProc := 1, jitterMem := 1, jitterCoh := 1,
    jitterAdapt := 1, jitterResil := 1 }

/-- C7 counterexample: at e = 0.10, p = 25 the computed chance is 0.99, not
0.50 — a roll of 0.6 (which a 0.50 Bernoulli trial would fail) succeeds. -/
theorem C7_cex :
    replicationSuccessChance 0.1 25 ≠ 0.5 ∧
    c7Cex25Agent.replicationEfficiency = 0.1 ∧ c7Cex25Agent.processingPower = 25 ∧
    c7Cex25Oracle.successRoll = 0.6 ∧ ¬((0.6 : ℚ) < 0.5) ∧
    (attemptReplication c7Cex25Agent AIType.base 0 c7Cex25Oracle).2.isSome = true := by
  refine ⟨by norm_num [replicationSuccessChance, min_def], rfl, rfl, rfl, by norm_num, ?_⟩
  norm_num [attemptReplication, c7Cex25Agent, c7Cex25Oracle, replicationSuccessChance, min_def]

/-- C8: under the replication system's gate (health > 50, energy > 50,
fewer than 1000 lifetime replications), every successful attempt strictly
decreases the parent's health and energy, increments the parent's
replicated count by exactly one, and never increases the parent's health. -/
theorem C8_replication_parent_costs (s : AgentState) (t : AIType) (cyc : ℕ)
    (o : ReplicationOracle) (hh : 50 < s.health) (he : 50 < s.energy)
    (_hc : s.replicatedCount < 1000)
    (hsucc : (attemptReplication s t cyc o).2.isSome = true) :
    (attemptReplication s t cyc o).1.health < s.health ∧
    (attemptReplication s t cyc o).1.energy < s.energy ∧
    (attemptReplication s t cyc o).1.replicatedCount = s.replicatedCount + 1 ∧
    (attemptReplication s t cyc o).1.health ≤ s.health := by
  have hgate : s.health > (1.0 : ℚ) ∧ s.energy > (5.0 : ℚ) := ⟨by linarith, by linarith⟩
  by_cases hroll : o.successRoll <
      replicationSuccessChance s.replicationEfficiency s.processingPower
  · simp only [attemptReplication, if_pos hgate, if_pos hroll]
    have hmaxh : max (s.health - s.health * 0.05) 1.0 = s.health - s.health * 0.05 :=
      max_eq_left (by linarith)
    have hmaxe : max (s.energy - s.energy * 0.1) 1.0 = s.energy - s.energy * 0.1 :=
      max_eq_left (by linarith)
    refine ⟨?_, ?_, ?_, ?_⟩ <;>
      first
        | trivial
        | (simp only [hmaxh, hmaxe]; linarith)
  · simp only [attemptReplication, if_pos hgate, if_neg hroll] at hsucc
    simp at hsucc

/-- C8 witness: the cost theorem applied to the concrete e = 0.10, p = 50
agent with a succeeding roll. -/
theorem C8_replication_parent_costs_witness :
    (50 : ℚ) < c7WitnessAgent.health ∧ (50 : ℚ) < c7WitnessAgent.energy ∧
    c7WitnessAgent.replicatedCount < 1000 ∧
    (attemptReplication c7WitnessAgent AIType.base 0 c7WitnessOracle).1.health
      < c7WitnessAgent.health ∧
    (attemptReplication c7WitnessAgent AIType.base 0 c7WitnessOracle).1.replicatedCount
      = c7WitnessAgent.replicatedCount + 1 := by
  have hh : (50 : ℚ) < c7WitnessAgent.health := by norm_num [c7WitnessAgent]
  have he : (50 : ℚ) < c7WitnessAgent.energy := by norm_num [c7WitnessAgent]
  have hc : c7WitnessAgent.replicatedCount < 1000 := by norm_num [c7WitnessAgent]
  have hsucc : (attemptReplication c7WitnessAgent AIType.base 0 c7WitnessOracle).2.isSome
      = true := by
    norm_num [attemptReplication, c7WitnessAgent, c7WitnessOracle,
      replicationSuccessChance, min_def]
  have h := C8_replication_parent_costs c7WitnessAgent AIType.base 0 c7WitnessOracle
    hh he hc hsucc
  exact ⟨hh, he, hc, h.1, h.2.2.1⟩

theorem handleSimulationOverride_monoculture (s : Sim) (m : MonoState) (r1 r2 : ℚ) :
    (handleSimulationOverride s m r1 r2).1.monoculture = s.monoculture := by
  unfold handleSimulationOverride
  dsimp only
  split_ifs <;> rfl

theorem handleCombatMonocultureVsGodai_monoculture (s : Sim) (m : MonoState) (o : CombatOracle) :
    (handleCombatMonocultureVsGodai s m o).1.monoculture = s.monoculture := by
  unfold handleCombatMonocultureVsGodai
  dsimp only
  split_ifs <;> rfl

theorem monocultureEngagementStep_monoculture (s : Sim) (m : MonoState) (o : CycleOracle) :
    (monocultureEngagementStep s m o).1.monoculture = s.monoculture := by
  unfold monocultureEngagementStep
  split_ifs
  · exact handleSimulationOverride_monoculture ..
  · rfl
  · exact handleCombatMonocultureVsGodai_monoculture ..
  · rfl

theorem monoculturePhase_alive (s : Sim) (o : CycleOracle) :
    ∀ m', (monoculturePhase s o).monoculture = some m' → m'.isAlive = true := by
  intro m' hm'
  unfold monoculturePhase at hm'
  cases hsm : s.monoculture with
  | none =>
      rw [hsm] at hm'
      rw [hsm] at hm'
      cases hm'
  | some mono =>
      rw [hsm] at hm'
      dsimp only at hm'
      by_cases hal : mono.isAlive = true
      · rw [if_pos hal] at hm'
        by_cases hstep : (monocultureEngagementStep { s with monoculture := none }
            (processInternalStateMerged mono o.mono) o).2.isAlive = true
        · rw [if_pos hstep] at hm'
          obtain rfl : _ = m' := by simpa using hm'
          exact hstep
        · rw [if_neg hstep] at hm'
          rw [monocultureEngagementStep_monoculture] at hm'
          cases hm'
      · rw [if_neg hal] at hm'
        cases hm'

theorem checkPopulationMilestones_foldl_preserves (p : ℕ) :
    ∀ (l : List ℕ) (s : Sim),
      ((List.foldl (fun st m =>
          if p ≥ m ∧ m ∉ st.populationMilestones then
            { st with populationMilestones := st.populationMilestones ++ [m] }
          else st) s l).monoculture = s.monoculture ∧
       (List.foldl (fun st m =>
          if p ≥ m ∧ m ∉ st.populationMilestones then
            { st with populationMilestones := st.populationMilestones ++ [m] }
          else st) s l).simulationOverReason = s.simulationOverReason)
  | [], s => ⟨rfl, rfl⟩
  | m :: l, s => by
      rw [List.foldl_cons]
      obtain ⟨h1, h2⟩ := checkPopulationMilestones_foldl_preserves p l
        (if p ≥ m ∧ m ∉ s.populationMilestones then
          { s with populationMilestones := s.populationMilestones ++ [m] } else s)
      refine ⟨h1.trans ?_, h2.trans ?_⟩ <;> split_ifs <;> rfl

theorem checkPopulationMilestones_preserves (s : Sim) (p : ℕ) :
    (checkPopulationMilestones s p).monoculture = s.monoculture ∧
    (checkPopulationMilestones s p).simulationOverReason = s.simulationOverReason :=
  checkPopulationMilestones_foldl_preserves p milestoneThresholds s

theorem checkForSimulationEndConditions_monoculture (s : Sim) (p : ℕ) :
    (checkForSimulationEndConditions s p).monoculture = s.monoculture := by
  unfold checkForSimulationEndConditions
  cases hm : s.monoculture <;> simp only [hm] <;> split_ifs <;> simp [hm]

theorem checkForSimulationEndConditions_of_isSome (s : Sim) (p : ℕ)
    (h : s.simulationOverReason.isSome = true) :
    checkForSimulationEndConditions s p = s := by
  unfold checkForSimulationEndConditions
  rw [if_pos h]

theorem handleCombat_death_sets_reason (s : Sim) (m : MonoState) (o : CombatOracle)
    (hm : m.isAlive = true) (hg : s.godai.isAlive = true)
    (hdead : (handleCombatMonocultureVsGodai s m o).2.isAlive = false) :
    (handleCombatMonocultureVsGodai s m o).1.simulationOverReason.isSome = true := by
  have hguard : ¬(¬m.isAlive = true ∨ ¬s.godai.isAlive = true) := by simp [hm, hg]
  unfold handleCombatMonocultureVsGodai at hdead ⊢
  rw [if_neg hguard] at hdead ⊢
  dsimp only at hdead ⊢
  by_cases hgd : (godaiReceiveDamage s.godai (m.combatStrength * o.monoAttackRoll)).isAlive
      = true
  · rw [if_neg (not_not_intro hgd)] at hdead ⊢
    by_cases hmd : (performCounterAttack
        (godaiReceiveDamage s.godai (m.combatStrength * o.monoAttackRoll)) m
        o.counter).isAlive = true
    · rw [if_neg (not_not_intro hmd)] at hdead
      exact absurd hdead (by simp [hmd])
    · rw [if_pos hmd]
      rfl
  · rw [if_pos hgd] at hdead
    simp at hdead

/-- C10 (amended): after every `process_one_cycle`, the monoculture field
holds only a live monoculture — a monoculture whose health reached 0 is
never stored back (first conjunct, an invariant preserved from any state
satisfying it); a monoculture that dies in GODAI's counter-attack always
has the simulation-over reason set in the same combat turn (second
conjunct); and a monoculture found dead at the start of the cycle sets the
reason in that same cycle (third conjunct).  A monoculture that dies in a
FAILED OVERRIDE, however, is dropped with no reason set — see the
counterexample — which is the one divergence from the claim. -/
theorem C10_monoculture_field_liveness :
    (∀ (s : Sim) (total : ℕ) (census : List (AILineage × ℕ)) (o : CycleOracle),
        (∀ m, s.monoculture = some m → m.isAlive = true) →
        ∀ m', (processOneCycle s total census o).monoculture = some m' →
          m'.isAlive = true) ∧
    (∀ (s : Sim) (m : MonoState) (o : CombatOracle),
        m.isAlive = true → s.godai.isAlive = true →
        (handleCombatMonocultureVsGodai s m o).2.isAlive = false →
        (handleCombatMonocultureVsGodai s m o).1.simulationOverReason.isSome = true) ∧
    (∀ (s : Sim) (total : ℕ) (census : List (AILineage × ℕ)) (o : CycleOracle)
        (m : MonoState),
        s.simulationRunning = true → s.simulationOverReason = none →
        s.monoculture = some m → m.isAlive = false →
        (processOneCycle s total census o).simulationOverReason.isSome = true) := by
  refine ⟨?_, handleCombat_death_sets_reason, ?_⟩
  · intro s total census o hinv m' hm'
    unfold processOneCycle at hm'
    split_ifs at hm' with hstop
    · exact hinv m' hm'
    · rw [checkForSimulationEndConditions_monoculture,
        (checkPopulationMilestones_preserves _ _).1] at hm'
      exact monoculturePhase_alive _ _ m' hm'
  · intro s total census o m hrun hreason hmono hdead
    unfold processOneCycle
    rw [if_neg (by simp [hrun, hreason])]
    have hform : formationPhase { s with currentCycle := s.currentCycle + 1 } total census
        = { s with currentCycle := s.currentCycle + 1 } := by
      unfold formationPhase
      rw [if_neg (by simp [hmono])]
    rw [hform]
    have hphase : (monoculturePhase { s with currentCycle := s.currentCycle + 1 }
        o).simulationOverReason = some SimReason.monocultureDefeated := by
      unfold monoculturePhase
      have hsc : ({ s with currentCycle := s.currentCycle + 1 } : Sim).monoculture
          = some m := hmono
      rw [hsc]
      dsimp only
      rw [if_neg (by simp [hdead])]
    have h2 := (checkPopulationMilestones_preserves
      (monoculturePhase { s with currentCycle := s.currentCycle + 1 } o) total).2
    rw [checkForSimulationEndConditions_of_isSome _ _ (by rw [h2, hphase]; rfl),
      h2, hphase]
    rfl

/-- A live Researcher monoculture with health exactly 0 that knows
`Absolute_Control_Protocol` (so the override path fires) and cannot heal
(resilience, processing power, adaptability all 0). -/
def c10Mono : MonoState :=
  { sourceLineage := .researcherAI, health := 0, isAlive := true,
    processingPower := 0, memory := 0, energy := 0, coherence := 1,
    adaptability := 0, resilience := 0, combatStrength := 8, defenseStrength := 8,
    knowledgeBase := [ { name := "Absolute_Control_Protocol",
                         effectDescription := "Grants ultimate control over the simulation flow.",
                         tags := ["simulation_control", "meta-ability", "win_condition",
                                  "ultimate"] } ],
    primaryGoalName := "Initiate Simulation Override" }

def c10Sim : Sim :=
  { godai := godaiNew, monoculture := some c10Mono, currentCycle := 0,
    simulationOverReason := none, populationMilestones := [], simulationRunning := true }

def c10Oracle : CycleOracle :=
  { mono := { metaRoll := 1, metaIdx := 0 }, overrideRoll1 := 1, overrideRoll2 := 1,
    combat := { monoAttackRoll := 1,
                counter := { powerRoll := 1, archetypeIdx := 0, extraRoll := 1 } } }

/-- The same monoculture already dead, for the witness of the
found-dead-at-start conjunct. -/
def c10DeadMono : MonoState :=
  { sourceLineage := .researcherAI, health := 0, isAlive := false,
    processingPower := 0, memory := 0, energy := 0, coherence := 1,
    adaptability := 0, resilience := 0, combatStrength := 8, defenseStrength := 8,
    knowledgeBase := [], primaryGoalName := "Initiate Simulation Override" }

def c10WitnessSim : Sim :=
  { godai := godaiNew, monoculture := some c10DeadMono, currentCycle := 0,
    simulationOverReason := none, populationMilestones := [], simulationRunning := true }

/-- C10 witness: a cycle that finds a dead monoculture in the field sets
the simulation-over reason. -/
theorem C10_monoculture_field_liveness_witness :
    c10WitnessSim.simulationRunning = true ∧
    c10WitnessSim.simulationOverReason = none ∧
    c10WitnessSim.monoculture = some c10DeadMono ∧
    c10DeadMono.isAlive = false ∧
    (processOneCycle c10WitnessSim 5 [] c10Oracle).simulationOverReason.isSome = true :=
  ⟨rfl, rfl, rfl, rfl,
   C10_monoculture_field_liveness.2.2 c10WitnessSim 5 [] c10Oracle c10DeadMono
     rfl rfl rfl rfl⟩

/-- C10 counterexample: a live Researcher monoculture whose override attempt
fails with health 0 is removed from the field during the cycle, yet the
simulation-over reason is NOT set in that cycle (it stays `none`) — the
failed-override death path sets no reason. -/
theorem C10_cex :
    c10Sim.monoculture = some c10Mono ∧ c10Mono.isAlive = true ∧
    c10Sim.simulationRunning = true ∧ c10Sim.simulationOverReason = none ∧
    (processOneCycle c10Sim 5 [] c10Oracle).monoculture = none ∧
    (processOneCycle c10Sim 5 [] c10Oracle).simulationOverReason = none := by
  have h1 : ("observing_passively" : String) ≠ "compromised_by_override" := by decide
  have h2 : ("observing_passively" : String) ≠ "engaged_in_conflict" := by decide
  refine ⟨rfl, rfl, rfl, rfl, ?_, ?_⟩ <;>
    norm_num [processOneCycle, c10Sim, c10Mono, c10Oracle, godaiNew, formationPhase,
      monoculturePhase, monocultureEngagementStep, processInternalStateMerged,
      emergentCreationMerged, handleSimulationOverride, checkPopulationMilestones,
      milestoneThresholds, checkForSimulationEndConditions, monoPresentAlive,
      h1, h2, max_def, min_def]
